import Mathlib

/-!
Shallow embedding of the Jenkins operator reconciliation control loop
(`pkg/controller/jenkins/jenkins_controller.go`) and proofs about it.

The embedding models the desired-state document (`v1alpha2.Jenkins`), the
defaulting function `setDefaults`, the migration function
`handleDeprecatedData`, the inner control loop `reconcile` (with the external
collaborators as an explicit environment) and the top-level wrapper
`Reconcile` (failure tracker, circuit breaker, error classification, jitter).
-/

namespace JenkinsOperator

/-- A container probe (readiness or liveness).  The concrete probe
constructors live outside the reconciled file; only presence/absence of a
probe matters to the control loop. -/
structure Probe where
  uri : String
  portName : String
  scheme : String
  initialDelaySeconds : Nat
  timeoutSeconds : Nat
  periodSeconds : Nat
  failureThreshold : Nat
deriving DecidableEq

/-- An environment variable of a container. -/
structure EnvVar where
  name : String
  value : String
deriving DecidableEq

/-- Resource requests and limits of a container (`corev1.ResourceRequirements`);
the code only builds them from four quantity strings and compares against the
zero value with `reflect.DeepEqual`. -/
structure ResourceRequirements where
  requestCPU : String
  requestMemory : String
  limitCPU : String
  limitMemory : String
deriving DecidableEq

/-- The zero value `corev1.ResourceRequirements\x7b\x7d`. -/
def emptyResourceRequirements : ResourceRequirements := ⟨"", "", "", ""⟩

/-- A container of the Jenkins master pod (`v1alpha2.Container`), restricted to
the fields `setDefaults` reads or writes. -/
structure Container where
  name : String
  image : String
  imagePullPolicy : String
  readinessProbe : Option Probe
  livenessProbe : Option Probe
  command : List String
  env : List EnvVar
  resources : ResourceRequirements
deriving DecidableEq

/-- A plugin reference (`v1alpha2.Plugin`). -/
structure Plugin where
  name : String
  version : String
deriving DecidableEq

/-- The `spec.master` section (`v1alpha2.JenkinsMaster`), restricted to the
fields the control loop touches. -/
structure Master where
  containers : List Container
  basePlugins : List Plugin
  annotations : List (String × String)
  annotationsDeprecated : List (String × String)
deriving DecidableEq

/-- A service definition (`v1alpha2.Service`); the code compares against the
zero value and sets type and port. -/
structure Service where
  type : String
  port : Nat
deriving DecidableEq

/-- The zero value `v1alpha2.Service\x7b\x7d`. -/
def emptyService : Service := ⟨"", 0⟩

/-- Backup configuration (`v1alpha2.Backup`), restricted to the fields read by
`setDefaults`. -/
structure Backup where
  containerName : String
  interval : Nat
deriving DecidableEq

/-- Jenkins API settings (`v1alpha2.JenkinsAPISettings`). -/
structure JenkinsAPISettings where
  authorizationStrategy : String
deriving DecidableEq

/-- Seed-job agent configuration; only the image field is touched. -/
structure SeedAgent where
  image : String
deriving DecidableEq

/-- The `Spec` of the desired-state document, restricted to the fields the
control loop touches. -/
structure JenkinsSpec where
  master : Master
  service : Service
  slaveService : Service
  backup : Backup
  jenkinsAPISettings : JenkinsAPISettings
  seedJobs : List String
  seedAgent : SeedAgent
deriving DecidableEq

/-- The `Status` of the desired-state document.  Timestamps are modelled as
natural numbers (metav1.Time instants). -/
structure JenkinsStatus where
  provisionStartTime : Nat
  baseConfigurationCompletedTime : Option Nat
  userConfigurationCompletedTime : Option Nat
deriving DecidableEq

/-- The desired-state document (`v1alpha2.Jenkins`). -/
structure Jenkins where
  name : String
  spec : JenkinsSpec
  status : JenkinsStatus
deriving DecidableEq

/-- Modelled from the spec: the reserved managed-application container name
(`resources.JenkinsMasterContainerName`, defined outside the given source). -/
def jenkinsMasterContainerName : String := "jenkins-master"

/-- Modelled from the spec: the documented default master image
(`constants.DefaultJenkinsMasterImage`, defined outside the given source). -/
def defaultJenkinsMasterImage : String := "jenkins/jenkins:lts"

/-- `corev1.PullAlways`. -/
def pullAlways : String := "Always"

/-- `corev1.URISchemeHTTP`. -/
def uriSchemeHTTP : String := "HTTP"

/-- `containerProbeURI` from the source. -/
def containerProbeURI : String := "login"

/-- `containerProbePortName` from the source. -/
def containerProbePortName : String := "http"

/-- Modelled from the spec: `resources.NewSimpleProbe` (defined outside the
given source) builds an HTTP readiness probe against a fixed path and port. -/
def newSimpleProbe (uri portName scheme : String) (initialDelay : Nat) : Probe :=
  ⟨uri, portName, scheme, initialDelay, 0, 0, 0⟩

/-- Modelled from the spec: `resources.NewProbe` (defined outside the given
source) builds an HTTP liveness probe with a longer initial delay. -/
def newProbe (uri portName scheme : String) (initialDelay timeout failureThreshold : Nat) :
    Probe :=
  ⟨uri, portName, scheme, initialDelay, timeout, 0, failureThreshold⟩

/-- Modelled from the spec: `resources.GetJenkinsMasterContainerBaseCommand`
(defined outside the given source); a fixed non-empty base command. -/
def jenkinsMasterContainerBaseCommand : List String :=
  ["bash", "-c", "/var/jenkins/scripts/init.sh && exec /sbin/tini -s -- /usr/local/bin/jenkins.sh"]

/-- `constants.JavaOpsVariableName`; modelled from the spec (defined outside
the given source): the fixed JVM-tuning environment variable name. -/
def javaOpsVariableName : String := "JAVA_OPTS"

/-- The default JVM options value, verbatim from the source. -/
def javaOpsDefaultValue : String :=
  "-XX:+UnlockExperimentalVMOptions -XX:+UseCGroupMemoryLimitForHeap -XX:MaxRAMFraction=1 -Djenkins.install.runSetupWizard=false -Djava.awt.headless=true"

/-- Modelled from the spec: the canonical plugin set `plugins.BasePlugins`
(defined outside the given source); a fixed non-empty list. -/
def basePlugins : List Plugin :=
  [⟨"kubernetes", "1.0"⟩, ⟨"workflow-job", "1.0"⟩, ⟨"workflow-aggregator", "1.0"⟩,
   ⟨"git", "1.0"⟩, ⟨"job-dsl", "1.0"⟩, ⟨"configuration-as-code", "1.0"⟩]

/-- `resources.NewResourceRequirements`; modelled from the spec (defined
outside the given source): builds requirements from four quantity strings. -/
def newResourceRequirements (reqCPU reqMem limCPU limMem : String) : ResourceRequirements :=
  ⟨reqCPU, reqMem, limCPU, limMem⟩

/-- Modelled from the spec: `constants.DefaultHTTPPortInt32` (defined outside
the given source), the documented default HTTP port. -/
def defaultHTTPPort : Nat := 8080

/-- Modelled from the spec: `constants.DefaultSlavePortInt32` (defined outside
the given source). -/
def defaultSlavePort : Nat := 50000

/-- `corev1.ServiceTypeClusterIP`. -/
def serviceTypeClusterIP : String := "ClusterIP"

/-- `corev1.ServiceTypeNodePort`. -/
def serviceTypeNodePort : String := "NodePort"

/-- Modelled from the spec: `v1alpha2.CreateUserAuthorizationStrategy`
(defined outside the given source), the default API authorization strategy. -/
def createUserAuthorizationStrategy : String := "createUser"

/-- Modelled from the spec: `constants.DefaultJenkinsAgentImage` (defined
outside the given source), the default agent image. -/
def defaultJenkinsAgentImage : String := "jenkins/inbound-agent:latest"

/-- `isJavaOpsVariableNotSet` from the source: true iff no environment
variable of the container carries the JVM-options name. -/
def isJavaOpsVariableNotSet (container : Container) : Bool :=
  !(container.env.any (fun e => e.name == javaOpsVariableName))

/-- `isResourceRequirementsNotSet` from the source: `reflect.DeepEqual`
against the zero value. -/
def isResourceRequirementsNotSet (requirements : ResourceRequirements) : Bool :=
  requirements == emptyResourceRequirements

/-- `setDefaultsForContainer` from the source, applied to one secondary
(non-primary) container: defaults the pull policy and the resource
requirements; returns the updated container and whether it changed. -/
def setDefaultsForContainer (c : Container) : Container × Bool :=
  let r1 := if c.imagePullPolicy = "" then ({c with imagePullPolicy := pullAlways}, true)
            else (c, false)
  if isResourceRequirementsNotSet r1.1.resources then
    ({r1.1 with resources := newResourceRequirements "50m" "50Mi" "100m" "100Mi"}, true)
  else r1

/-- The evolving state of one `setDefaults` run: the document, the primary
("Jenkins") container being edited locally, and the accumulated changed
flag. -/
structure DState where
  j : Jenkins
  jc : Container
  changed : Bool
deriving DecidableEq

/-- Default master image and pull policy (source lines 345-350). -/
def stepImage (s : DState) : DState :=
  if s.jc.image = "" then
    {s with jc.image := defaultJenkinsMasterImage, jc.imagePullPolicy := pullAlways,
            changed := true}
  else s

/-- Default master image pull policy (source lines 351-355). -/
def stepPullPolicy (s : DState) : DState :=
  if s.jc.imagePullPolicy = "" then
    {s with jc.imagePullPolicy := pullAlways, changed := true}
  else s

/-- Default readiness probe (source lines 357-361). -/
def stepReadinessProbe (s : DState) : DState :=
  if s.jc.readinessProbe = none then
    {s with jc.readinessProbe :=
              some (newSimpleProbe containerProbeURI containerProbePortName uriSchemeHTTP 30),
            changed := true}
  else s

/-- Default liveness probe (source lines 362-366). -/
def stepLivenessProbe (s : DState) : DState :=
  if s.jc.livenessProbe = none then
    {s with jc.livenessProbe :=
              some (newProbe containerProbeURI containerProbePortName uriSchemeHTTP 80 5 12),
            changed := true}
  else s

/-- Default container command (source lines 367-371). -/
def stepCommand (s : DState) : DState :=
  if s.jc.command = [] then
    {s with jc.command := jenkinsMasterContainerBaseCommand, changed := true}
  else s

/-- Default JAVA_OPTS environment variable (source lines 372-379). -/
def stepJavaOpts (s : DState) : DState :=
  if isJavaOpsVariableNotSet s.jc then
    {s with jc.env := s.jc.env ++ [⟨javaOpsVariableName, javaOpsDefaultValue⟩],
            changed := true}
  else s

/-- Default operator plugins (source lines 380-384). -/
def stepBasePlugins (s : DState) : DState :=
  if s.j.spec.master.basePlugins = [] then
    {s with j.spec.master.basePlugins := basePlugins, changed := true}
  else s

/-- Default master container resource requirements (source lines 385-389). -/
def stepResources (s : DState) : DState :=
  if isResourceRequirementsNotSet s.jc.resources then
    {s with jc.resources := newResourceRequirements "1" "500Mi" "1500m" "3Gi", changed := true}
  else s

/-- Default master service (source lines 390-401). -/
def stepService (useNodePort : Bool) (s : DState) : DState :=
  if s.j.spec.service = emptyService then
    {s with j.spec.service :=
              ⟨if useNodePort then serviceTypeNodePort else serviceTypeClusterIP,
                defaultHTTPPort⟩,
            changed := true}
  else s

/-- Default slave service (source lines 402-409). -/
def stepSlaveService (s : DState) : DState :=
  if s.j.spec.slaveService = emptyService then
    {s with j.spec.slaveService := ⟨serviceTypeClusterIP, defaultSlavePort⟩, changed := true}
  else s

/-- Defaults for the secondary (non-primary) containers, applied in place to
the document's container list (source lines 410-416). -/
def stepOtherContainers (s : DState) : DState :=
  match s.j.spec.master.containers with
  | [] => s
  | c0 :: rest =>
    let pairs := rest.map setDefaultsForContainer
    {s with j.spec.master.containers := c0 :: pairs.map (fun p => p.1),
            changed := s.changed || pairs.any (fun p => p.2)}

/-- Default backup interval (source lines 417-421). -/
def stepBackup (s : DState) : DState :=
  if s.j.spec.backup.containerName ≠ "" ∧ s.j.spec.backup.interval = 0 then
    {s with j.spec.backup.interval := 30, changed := true}
  else s

/-- Write the locally edited Jenkins container back as the head of the
container list (source lines 423-430). -/
def stepWriteBack (s : DState) : DState :=
  {s with j.spec.master.containers := s.jc :: s.j.spec.master.containers.drop 1}

/-- Default Jenkins API settings when the whole structure is zero (source
lines 432-436). -/
def stepAPISettings (s : DState) : DState :=
  if s.j.spec.jenkinsAPISettings = ⟨""⟩ then
    {s with j.spec.jenkinsAPISettings := ⟨createUserAuthorizationStrategy⟩, changed := true}
  else s

/-- Default Jenkins API authorization strategy (source lines 438-442). -/
def stepAuthorizationStrategy (s : DState) : DState :=
  if s.j.spec.jenkinsAPISettings.authorizationStrategy = "" then
    {s with j.spec.jenkinsAPISettings.authorizationStrategy :=
              createUserAuthorizationStrategy,
            changed := true}
  else s

/-- Default seed-job agent image (source lines 444-448). -/
def stepSeedAgent (s : DState) : DState :=
  if s.j.spec.seedJobs ≠ [] ∧ s.j.spec.seedAgent.image = "" then
    {s with j.spec.seedAgent.image := defaultJenkinsAgentImage, changed := true}
  else s

/-- The body of `setDefaults` after the primary-container check: the source's
sequence of defaulting blocks in order (lines 345-453). -/
def setDefaultsCore (useNodePort : Bool) (j : Jenkins) (jc : Container) (changed : Bool) :
    Jenkins × Bool × Option String :=
  let s := stepSeedAgent (stepAuthorizationStrategy (stepAPISettings (stepWriteBack
    (stepBackup (stepOtherContainers (stepSlaveService (stepService useNodePort
    (stepResources (stepBasePlugins (stepJavaOpts (stepCommand (stepLivenessProbe
    (stepReadinessProbe (stepPullPolicy (stepImage ⟨j, jc, changed⟩)))))))))))))))
  (s.j, s.changed, none)

/-- The error message for a primary container with the wrong name (source
line 340; quotes around the name elided). -/
def firstContainerError : String :=
  "first container in spec.master.containers must be Jenkins container with name jenkins-master, please correct CR"

/-- `setDefaults` from the source (lines 329-454) as a pure function: returns
the (possibly rewritten) document, the changed flag (which is also the requeue
decision) and an optional validation error.  Persistence of the changed
document is performed by the caller's environment. -/
def setDefaults (useNodePort : Bool) (j : Jenkins) : Jenkins × Bool × Option String :=
  match j.spec.master.containers with
  | [] =>
    setDefaultsCore useNodePort j
      ⟨jenkinsMasterContainerName, "", "", none, none, [], [], emptyResourceRequirements⟩ true
  | c0 :: _ =>
    if c0.name ≠ jenkinsMasterContainerName then (j, false, some firstContainerError)
    else setDefaultsCore useNodePort j c0 false

/-- `handleDeprecatedData` from the source (lines 493-506) as a pure function:
moves the deprecated annotations to the current field and clears the
deprecated one; returns the document and whether it changed. -/
def handleDeprecatedData (j : Jenkins) : Jenkins × Bool :=
  if j.spec.master.annotationsDeprecated ≠ [] then
    ({j with spec.master.annotations := j.spec.master.annotationsDeprecated,
             spec.master.annotationsDeprecated := []}, true)
  else (j, false)

/-- The state after the master-container half of the `setDefaults` chain (up
to and including the resource-requirements default). -/
def midState (j : Jenkins) (jc : Container) (changed : Bool) : DState :=
  stepResources (stepBasePlugins (stepJavaOpts (stepCommand (stepLivenessProbe
    (stepReadinessProbe (stepPullPolicy (stepImage ⟨j, jc, changed⟩)))))))

/-- The state after the whole `setDefaults` chain. -/
def coreState (useNodePort : Bool) (j : Jenkins) (jc : Container) (changed : Bool) : DState :=
  stepSeedAgent (stepAuthorizationStrategy (stepAPISettings (stepWriteBack (stepBackup
    (stepOtherContainers (stepSlaveService (stepService useNodePort
      (midState j jc changed))))))))

/-- Errors returned by the collaborators, classified the way the wrapper
classifies them: optimistic-concurrency conflicts (`apierrors.IsConflict`),
not-found store reads (`apierrors.IsNotFound`), remote Groovy script
execution failures (`jenkinsclient.GroovyScriptExecutionFailed`) and all
other errors.  Each carries its rendered message (Go `err.Error()`). -/
inductive Err
| conflict (msg : String)
| notFound (msg : String)
| groovy (configurationType : String) (src : String) (scriptName : String)
    (logs : List String) (msg : String)
| other (msg : String)
deriving DecidableEq

/-- The rendered error message, used for string-identity comparison by the
failure tracker. -/
def Err.message : Err → String
| conflict m => m
| notFound m => m
| groovy _ _ _ _ m => m
| other m => m

/-- `apierrors.IsConflict`. -/
def Err.isConflict : Err → Bool
| conflict _ => true
| _ => false

/-- `apierrors.IsNotFound`. -/
def Err.isNotFound : Err → Bool
| notFound _ => true
| _ => false

/-- The result contract returned to the dispatcher (`reconcile.Result`). -/
structure RResult where
  requeue : Bool
  requeueAfter : Nat
deriving DecidableEq

/-- Reconciliation phase of a notification event. -/
inductive Phase
| base
| user
deriving DecidableEq

/-- Severity level of a notification event. -/
inductive Level
| info
| warning
deriving DecidableEq

/-- Reason codes of the notification events emitted by the control loop.
Completion reasons carry the elapsed duration since provisioning start;
failure reasons carry their short and verbose message lists. -/
inductive Reason
| reconcileLoopFailed (msg : String)
| groovyScriptExecutionFailed (short : List String) (logs : List String)
| baseConfigurationFailed (short : List String) (verbose : List String)
| baseConfigurationComplete (elapsed : Nat)
| userConfigurationFailed (short : List String) (verbose : List String)
| userConfigurationComplete (elapsed : Nat)
deriving DecidableEq

/-- A notification event: the document snapshot, the phase, the severity and
the reason. -/
structure Event where
  jenkins : Jenkins
  phase : Phase
  level : Level
  reason : Reason
deriving DecidableEq

/-- The external collaborators of one `reconcile` invocation: the store read,
the store update (invoked on each persisted document), the Base and User
Configuration engines, and the clock. -/
structure Env where
  getResult : Except Err Jenkins
  update : Jenkins → Option Err
  baseValidate : Jenkins → Except Err (List String)
  baseReconcile : Except Err (RResult × Bool)
  userValidate : Jenkins → Except Err (List String)
  reconcileCasc : Except Err RResult
  reconcileOthers : Except Err RResult
  now : Nat

/-- The observable outcome of one inner `reconcile` invocation: its three Go
return values plus the notification events it emitted and the documents it
persisted (in order). -/
structure InnerOut where
  result : RResult
  jenkins : Option Jenkins
  err : Option Err
  events : List Event
  updates : List Jenkins
deriving DecidableEq

/-- The User Configuration part of `reconcile` (source lines 267-326):
validate, reconcile casc, reconcile seed jobs and backups, then stamp the
user-configuration completion timestamp and emit the completion notification
if the timestamp is unset.  `evs` and `ups` are the events and updates
accumulated by the earlier part of the pass. -/
def userPart (env : Env) (j : Jenkins) (evs : List Event) (ups : List Jenkins) : InnerOut :=
  match env.userValidate j with
  | .error e => ⟨⟨false, 0⟩, some j, some e, evs, ups⟩
  | .ok messages =>
    if messages ≠ [] then
      let message := "Validation of user configuration failed, please correct Jenkins CR"
      ⟨⟨false, 0⟩, some j, none,
        evs ++ [⟨j, .user, .warning, .userConfigurationFailed [message] (message :: messages)⟩],
        ups⟩
    else
      match env.reconcileCasc with
      | .error e => ⟨⟨false, 0⟩, some j, some e, evs, ups⟩
      | .ok result =>
        if result.requeue then ⟨result, some j, none, evs, ups⟩
        else
          match env.reconcileOthers with
          | .error e => ⟨⟨false, 0⟩, some j, some e, evs, ups⟩
          | .ok result2 =>
            if result2.requeue then ⟨result2, some j, none, evs, ups⟩
            else
              match j.status.userConfigurationCompletedTime with
              | some _ => ⟨⟨false, 0⟩, some j, none, evs, ups⟩
              | none =>
                let j' := {j with status.userConfigurationCompletedTime := some env.now}
                match env.update j' with
                | some e => ⟨⟨false, 0⟩, some j', some e, evs, ups ++ [j']⟩
                | none =>
                  ⟨⟨false, 0⟩, some j', none,
                    evs ++ [⟨j', .user, .info,
                      .userConfigurationComplete (env.now - j'.status.provisionStartTime)⟩],
                    ups ++ [j']⟩

/-- The phase-orchestration part of `reconcile` (source lines 211-326): Base
Configuration validate and reconcile, the base completion stamp and
notification, then the User Configuration part. -/
def phasesPart (env : Env) (j : Jenkins) : InnerOut :=
  match env.baseValidate j with
  | .error e => ⟨⟨false, 0⟩, some j, some e, [], []⟩
  | .ok baseMessages =>
    if baseMessages ≠ [] then
      let message := "Validation of base configuration failed, please correct Jenkins CR."
      ⟨⟨false, 0⟩, some j, none,
        [⟨j, .base, .warning, .baseConfigurationFailed [message] (message :: baseMessages)⟩],
        []⟩
    else
      match env.baseReconcile with
      | .error e => ⟨⟨false, 0⟩, some j, some e, [], []⟩
      | .ok (result, hasClient) =>
        if result.requeue then ⟨result, some j, none, [], []⟩
        else if !hasClient then ⟨⟨false, 0⟩, some j, none, [], []⟩
        else
          match j.status.baseConfigurationCompletedTime with
          | some _ => userPart env j [] []
          | none =>
            let j' := {j with status.baseConfigurationCompletedTime := some env.now}
            match env.update j' with
            | some e => ⟨⟨false, 0⟩, some j', some e, [], [j']⟩
            | none =>
              userPart env j'
                [⟨j', .base, .info,
                  .baseConfigurationComplete (env.now - j'.status.provisionStartTime)⟩]
                [j']

/-- The inner `reconcile` (source lines 178-327): fetch the document, apply
defaulting then migration (each persisting and requeueing immediately when it
changed the document), then run the phases. -/
def reconcile (env : Env) (useNodePort : Bool) : InnerOut :=
  match env.getResult with
  | .error e =>
    if e.isNotFound then ⟨⟨false, 0⟩, none, none, [], []⟩
    else ⟨⟨false, 0⟩, none, some e, [], []⟩
  | .ok jenkins0 =>
    let d := setDefaults useNodePort jenkins0
    match d.2.2 with
    | some m => ⟨⟨false, 0⟩, some d.1, some (.other m), [], []⟩
    | none =>
      let updErrD := if d.2.1 then env.update d.1 else none
      let upsD := if d.2.1 then [d.1] else []
      match updErrD with
      | some e => ⟨⟨false, 0⟩, some d.1, some e, [], upsD⟩
      | none =>
        if d.2.1 then ⟨⟨true, 0⟩, some d.1, none, [], upsD⟩
        else
          let h := handleDeprecatedData d.1
          let updErrM := if h.2 then env.update h.1 else none
          let upsM := if h.2 then [h.1] else []
          match updErrM with
          | some e => ⟨⟨false, 0⟩, some h.1, some e, [], upsM⟩
          | none =>
            if h.2 then ⟨⟨true, 0⟩, some h.1, none, [], upsM⟩
            else phasesPart env h.1

/-- A failure-tracker entry (`reconcileError` in the source): the last error
and the consecutive-occurrence counter. -/
structure FailureEntry where
  err : Err
  counter : Nat
deriving DecidableEq

/-- The process-wide failure tracker (`reconcileErrors`), a map from resource
identity to failure entry, modelled as an association list. -/
abbrev Tracker := List (String × FailureEntry)

/-- Map lookup in the failure tracker. -/
def lookupEntry (t : Tracker) (name : String) : Option FailureEntry :=
  (t.find? (fun p => p.1 == name)).map (fun p => p.2)

/-- Map assignment in the failure tracker. -/
def storeEntry (t : Tracker) (name : String) (e : FailureEntry) : Tracker :=
  match t with
  | [] => [(name, e)]
  | p :: rest => if p.1 = name then (name, e) :: rest else p :: storeEntry rest name e

/-- `reconcileFailLimit` from the source. -/
def reconcileFailLimit : Nat := 10

/-- The failure-tracker entry the wrapper stores for an error: create with
count 1, increment on a string-identical message, reset to count 1 on a
differing message (source lines 117-130). -/
def nextEntry (t : Tracker) (name : String) (e : Err) : FailureEntry :=
  match lookupEntry t name with
  | some last =>
    if e.message = last.err.message then ⟨last.err, last.counter + 1⟩ else ⟨e, 1⟩
  | none => ⟨e, 1⟩

/-- The observable outcome of one top-level `Reconcile` invocation: whether
it panicked (a nil-document dereference while building a notification), the
returned result, the returned error, the notification events it emitted and
the updated failure tracker. -/
structure WrapOut where
  panicked : Bool
  result : RResult
  err : Option Err
  events : List Event
  tracker : Tracker
deriving DecidableEq

/-- The top-level `Reconcile` wrapper (source lines 108-176), as a function of
the three values returned by the inner `reconcile`, the current failure
tracker, the resource identity and the random jitter draw (`rand.Intn 10`):
conflict classification, failure tracking with the circuit breaker, the
Groovy special case, and jitter injection on a requeue with no delay.
Building a notification event dereferences the document snapshot; with a
`none` snapshot this is a nil-pointer dereference, modelled as `panicked`. -/
def Reconcile (tracker : Tracker) (name : String) (draw : Fin 10)
    (result : RResult) (jenkins : Option Jenkins) (err : Option Err) : WrapOut :=
  match err with
  | some e =>
    if e.isConflict then ⟨false, ⟨true, 0⟩, none, [], tracker⟩
    else
      let lastErrors : FailureEntry := nextEntry tracker name e
      let tracker' := storeEntry tracker name lastErrors
      if lastErrors.counter ≥ reconcileFailLimit then
        match jenkins with
        | none => ⟨true, ⟨false, 0⟩, none, [], tracker'⟩
        | some j =>
          ⟨false, ⟨false, 0⟩, none,
            [⟨j, .base, .warning, .reconcileLoopFailed e.message⟩], tracker'⟩
      else
        match e with
        | .groovy configurationType src scriptName logs _ =>
          match jenkins with
          | none => ⟨true, ⟨false, 0⟩, none, [], tracker'⟩
          | some j =>
            ⟨false, ⟨false, 0⟩, none,
              [⟨j, .base, .warning,
                .groovyScriptExecutionFailed
                  [configurationType ++ " Source " ++ src ++ " Name " ++ scriptName ++
                    " groovy script execution failed"] logs⟩], tracker'⟩
        | _ => ⟨false, ⟨true, 0⟩, none, [], tracker'⟩
  | none =>
    if result.requeue ∧ result.requeueAfter = 0 then
      ⟨false, ⟨true, draw.val⟩, none, [], tracker⟩
    else ⟨false, result, none, [], tracker⟩

/-- The complete top-level invocation: run the inner `reconcile` against the
environment, then the wrapper on its results; the events are the inner events
followed by the wrapper events. -/
def ReconcileFull (env : Env) (useNodePort : Bool) (tracker : Tracker) (name : String)
    (draw : Fin 10) : WrapOut :=
  let inner := reconcile env useNodePort
  let w := Reconcile tracker name draw inner.result inner.jenkins inner.err
  {w with events := inner.events ++ w.events}

/-- Run the wrapper on a sequence of consecutive inner-reconcile failures for
one identity (one call per error message in the list, threading the failure
tracker), collecting each call's outcome. -/
def runErrors (name : String) (jk : Option Jenkins) (draw : Fin 10) :
    List String → Tracker → List WrapOut
| [], _ => []
| m :: rest, t =>
  let w := Reconcile t name draw ⟨false, 0⟩ jk (some (.other m))
  w :: runErrors name jk draw rest w.tracker

/-- Placeholder outcome used as the default of positional list access. -/
def dummyOut : WrapOut := ⟨false, ⟨false, 0⟩, none, [], []⟩

/-- The expected outcome of a wrapper call whose identity has failed `c`
consecutive times with the same message `msg`: below the fail limit requeue
with no notification, at or above it give up with one warning. -/
def mkIdenticalOut (name msg : String) (jk : Jenkins) (c : Nat) : WrapOut :=
  if reconcileFailLimit ≤ c then
    ⟨false, ⟨false, 0⟩, none, [⟨jk, .base, .warning, .reconcileLoopFailed msg⟩],
      [(name, ⟨.other msg, c⟩)]⟩
  else ⟨false, ⟨true, 0⟩, none, [], [(name, ⟨.other msg, c⟩)]⟩

/-- Normal form of a secondary container: the fields defaulted by
`setDefaultsForContainer` are set. -/
def SecondaryNormal (c : Container) : Prop :=
  c.imagePullPolicy ≠ "" ∧ c.resources ≠ emptyResourceRequirements

/-- Normal form of the primary Jenkins container: every field defaulted by
`setDefaults` is set and the reserved name is carried. -/
def MasterNormal (c : Container) : Prop :=
  c.name = jenkinsMasterContainerName ∧ c.image ≠ "" ∧ c.imagePullPolicy ≠ "" ∧
  c.readinessProbe ≠ none ∧ c.livenessProbe ≠ none ∧ c.command ≠ [] ∧
  isJavaOpsVariableNotSet c = false ∧ c.resources ≠ emptyResourceRequirements

/-- Normal form of a document: every guard of `setDefaults` is false, so a
further application changes nothing. -/
def Normalized (j : Jenkins) : Prop :=
  (∃ c0 rest, j.spec.master.containers = c0 :: rest ∧ MasterNormal c0 ∧
     ∀ c ∈ rest, SecondaryNormal c) ∧
  j.spec.master.basePlugins ≠ [] ∧
  j.spec.service ≠ emptyService ∧
  j.spec.slaveService ≠ emptyService ∧
  ¬(j.spec.backup.containerName ≠ "" ∧ j.spec.backup.interval = 0) ∧
  j.spec.jenkinsAPISettings.authorizationStrategy ≠ "" ∧
  ¬(j.spec.seedJobs ≠ [] ∧ j.spec.seedAgent.image = "")

/-- A completely empty desired-state document used as concrete input. -/
def emptyDoc : Jenkins :=
  ⟨"example", ⟨⟨[], [], [], []⟩, emptyService, emptyService, ⟨"", 0⟩, ⟨""⟩, [], ⟨""⟩⟩,
    ⟨5, none, none⟩⟩

/-- A document that needs both migration (a deprecated annotation is present)
and defaulting (everything is unset). -/
def needsBothDoc : Jenkins :=
  {emptyDoc with spec.master.annotationsDeprecated := [("a", "b")]}

/-- An environment whose store holds `needsBothDoc` and whose collaborators
all succeed. -/
def envNeedsBoth : Env :=
  ⟨.ok needsBothDoc, fun _ => none, fun _ => .ok [], .ok (⟨false, 0⟩, true),
    fun _ => .ok [], .ok ⟨false, 0⟩, .ok ⟨false, 0⟩, 7⟩

/-- An environment whose store read fails with a plain (non-not-found,
non-conflict) error. -/
def envGetFail : Env :=
  ⟨.error (.other "storage backend unavailable"), fun _ => none, fun _ => .ok [],
    .ok (⟨false, 0⟩, true), fun _ => .ok [], .ok ⟨false, 0⟩, .ok ⟨false, 0⟩, 0⟩

/-- A document whose first container does not carry the reserved name. -/
def wrongNameDoc : Jenkins :=
  {emptyDoc with spec.master.containers :=
    [⟨"sidecar", "", "", none, none, [], [], emptyResourceRequirements⟩]}

/-- An environment whose store holds `wrongNameDoc`. -/
def envWrongName : Env :=
  ⟨.ok wrongNameDoc, fun _ => none, fun _ => .ok [], .ok (⟨false, 0⟩, true),
    fun _ => .ok [], .ok ⟨false, 0⟩, .ok ⟨false, 0⟩, 7⟩

/-- A document whose two phase-completion timestamps are already set. -/
def completedDoc : Jenkins :=
  {emptyDoc with status := ⟨5, some 8, some 9⟩}

/-- An environment whose store holds `completedDoc` and whose collaborators
all succeed. -/
def envCompleted : Env :=
  ⟨.ok completedDoc, fun _ => none, fun _ => .ok [], .ok (⟨false, 0⟩, true),
    fun _ => .ok [], .ok ⟨false, 0⟩, .ok ⟨false, 0⟩, 7⟩

/-- `stepImage` leaves the document part of the state unchanged. -/
@[simp] theorem stepImage_j (s : DState) : (stepImage s).j = s.j := by unfold stepImage; split <;> rfl

/-- `stepImage` leaves this container field unchanged. -/
@[simp] theorem stepImage_name (s : DState) : (stepImage s).jc.name = s.jc.name := by unfold stepImage; split <;> rfl

/-- `stepImage` leaves this container field unchanged. -/
@[simp] theorem stepImage_readinessProbe (s : DState) : (stepImage s).jc.readinessProbe = s.jc.readinessProbe := by unfold stepImage; split <;> rfl

/-- `stepImage` leaves this container field unchanged. -/
@[simp] theorem stepImage_livenessProbe (s : DState) : (stepImage s).jc.livenessProbe = s.jc.livenessProbe := by unfold stepImage; split <;> rfl

/-- `stepImage` leaves this container field unchanged. -/
@[simp] theorem stepImage_command (s : DState) : (stepImage s).jc.command = s.jc.command := by unfold stepImage; split <;> rfl

/-- `stepImage` leaves this container field unchanged. -/
@[simp] theorem stepImage_env (s : DState) : (stepImage s).jc.env = s.jc.env := by unfold stepImage; split <;> rfl

/-- `stepImage` leaves this container field unchanged. -/
@[simp] theorem stepImage_resources (s : DState) : (stepImage s).jc.resources = s.jc.resources := by unfold stepImage; split <;> rfl

/-- `stepPullPolicy` leaves the document part of the state unchanged. -/
@[simp] theorem stepPullPolicy_j (s : DState) : (stepPullPolicy s).j = s.j := by unfold stepPullPolicy; split <;> rfl

/-- `stepPullPolicy` leaves this container field unchanged. -/
@[simp] theorem stepPullPolicy_name (s : DState) : (stepPullPolicy s).jc.name = s.jc.name := by unfold stepPullPolicy; split <;> rfl

/-- `stepPullPolicy` leaves this container field unchanged. -/
@[simp] theorem stepPullPolicy_image (s : DState) : (stepPullPolicy s).jc.image = s.jc.image := by unfold stepPullPolicy; split <;> rfl

/-- `stepPullPolicy` leaves this container field unchanged. -/
@[simp] theorem stepPullPolicy_readinessProbe (s : DState) : (stepPullPolicy s).jc.readinessProbe = s.jc.readinessProbe := by unfold stepPullPolicy; split <;> rfl

/-- `stepPullPolicy` leaves this container field unchanged. -/
@[simp] theorem stepPullPolicy_livenessProbe (s : DState) : (stepPullPolicy s).jc.livenessProbe = s.jc.livenessProbe := by unfold stepPullPolicy; split <;> rfl

/-- `stepPullPolicy` leaves this container field unchanged. -/
@[simp] theorem stepPullPolicy_command (s : DState) : (stepPullPolicy s).jc.command = s.jc.command := by unfold stepPullPolicy; split <;> rfl

/-- `stepPullPolicy` leaves this container field unchanged. -/
@[simp] theorem stepPullPolicy_env (s : DState) : (stepPullPolicy s).jc.env = s.jc.env := by unfold stepPullPolicy; split <;> rfl

/-- `stepPullPolicy` leaves this container field unchanged. -/
@[simp] theorem stepPullPolicy_resources (s : DState) : (stepPullPolicy s).jc.resources = s.jc.resources := by unfold stepPullPolicy; split <;> rfl

/-- `stepReadinessProbe` leaves the document part of the state unchanged. -/
@[simp] theorem stepReadinessProbe_j (s : DState) : (stepReadinessProbe s).j = s.j := by unfold stepReadinessProbe; split <;> rfl

/-- `stepReadinessProbe` leaves this container field unchanged. -/
@[simp] theorem stepReadinessProbe_name (s : DState) : (stepReadinessProbe s).jc.name = s.jc.name := by unfold stepReadinessProbe; split <;> rfl

/-- `stepReadinessProbe` leaves this container field unchanged. -/
@[simp] theorem stepReadinessProbe_image (s : DState) : (stepReadinessProbe s).jc.image = s.jc.image := by unfold stepReadinessProbe; split <;> rfl

/-- `stepReadinessProbe` leaves this container field unchanged. -/
@[simp] theorem stepReadinessProbe_imagePullPolicy (s : DState) : (stepReadinessProbe s).jc.imagePullPolicy = s.jc.imagePullPolicy := by unfold stepReadinessProbe; split <;> rfl

/-- `stepReadinessProbe` leaves this container field unchanged. -/
@[simp] theorem stepReadinessProbe_livenessProbe (s : DState) : (stepReadinessProbe s).jc.livenessProbe = s.jc.livenessProbe := by unfold stepReadinessProbe; split <;> rfl

/-- `stepReadinessProbe` leaves this container field unchanged. -/
@[simp] theorem stepReadinessProbe_command (s : DState) : (stepReadinessProbe s).jc.command = s.jc.command := by unfold stepReadinessProbe; split <;> rfl

/-- `stepReadinessProbe` leaves this container field unchanged. -/
@[simp] theorem stepReadinessProbe_env (s : DState) : (stepReadinessProbe s).jc.env = s.jc.env := by unfold stepReadinessProbe; split <;> rfl

/-- `stepReadinessProbe` leaves this container field unchanged. -/
@[simp] theorem stepReadinessProbe_resources (s : DState) : (stepReadinessProbe s).jc.resources = s.jc.resources := by unfold stepReadinessProbe; split <;> rfl

/-- `stepLivenessProbe` leaves the document part of the state unchanged. -/
@[simp] theorem stepLivenessProbe_j (s : DState) : (stepLivenessProbe s).j = s.j := by unfold stepLivenessProbe; split <;> rfl

/-- `stepLivenessProbe` leaves this container field unchanged. -/
@[simp] theorem stepLivenessProbe_name (s : DState) : (stepLivenessProbe s).jc.name = s.jc.name := by unfold stepLivenessProbe; split <;> rfl

/-- `stepLivenessProbe` leaves this container field unchanged. -/
@[simp] theorem stepLivenessProbe_image (s : DState) : (stepLivenessProbe s).jc.image = s.jc.image := by unfold stepLivenessProbe; split <;> rfl

/-- `stepLivenessProbe` leaves this container field unchanged. -/
@[simp] theorem stepLivenessProbe_imagePullPolicy (s : DState) : (stepLivenessProbe s).jc.imagePullPolicy = s.jc.imagePullPolicy := by unfold stepLivenessProbe; split <;> rfl

/-- `stepLivenessProbe` leaves this container field unchanged. -/
@[simp] theorem stepLivenessProbe_readinessProbe (s : DState) : (stepLivenessProbe s).jc.readinessProbe = s.jc.readinessProbe := by unfold stepLivenessProbe; split <;> rfl

/-- `stepLivenessProbe` leaves this container field unchanged. -/
@[simp] theorem stepLivenessProbe_command (s : DState) : (stepLivenessProbe s).jc.command = s.jc.command := by unfold stepLivenessProbe; split <;> rfl

/-- `stepLivenessProbe` leaves this container field unchanged. -/
@[simp] theorem stepLivenessProbe_env (s : DState) : (stepLivenessProbe s).jc.env = s.jc.env := by unfold stepLivenessProbe; split <;> rfl

/-- `stepLivenessProbe` leaves this container field unchanged. -/
@[simp] theorem stepLivenessProbe_resources (s : DState) : (stepLivenessProbe s).jc.resources = s.jc.resources := by unfold stepLivenessProbe; split <;> rfl

/-- `stepCommand` leaves the document part of the state unchanged. -/
@[simp] theorem stepCommand_j (s : DState) : (stepCommand s).j = s.j := by unfold stepCommand; split <;> rfl

/-- `stepCommand` leaves this container field unchanged. -/
@[simp] theorem stepCommand_name (s : DState) : (stepCommand s).jc.name = s.jc.name := by unfold stepCommand; split <;> rfl

/-- `stepCommand` leaves this container field unchanged. -/
@[simp] theorem stepCommand_image (s : DState) : (stepCommand s).jc.image = s.jc.image := by unfold stepCommand; split <;> rfl

/-- `stepCommand` leaves this container field unchanged. -/
@[simp] theorem stepCommand_imagePullPolicy (s : DState) : (stepCommand s).jc.imagePullPolicy = s.jc.imagePullPolicy := by unfold stepCommand; split <;> rfl

/-- `stepCommand` leaves this container field unchanged. -/
@[simp] theorem stepCommand_readinessProbe (s : DState) : (stepCommand s).jc.readinessProbe = s.jc.readinessProbe := by unfold stepCommand; split <;> rfl

/-- `stepCommand` leaves this container field unchanged. -/
@[simp] theorem stepCommand_livenessProbe (s : DState) : (stepCommand s).jc.livenessProbe = s.jc.livenessProbe := by unfold stepCommand; split <;> rfl

/-- `stepCommand` leaves this container field unchanged. -/
@[simp] theorem stepCommand_env (s : DState) : (stepCommand s).jc.env = s.jc.env := by unfold stepCommand; split <;> rfl

/-- `stepCommand` leaves this container field unchanged. -/
@[simp] theorem stepCommand_resources (s : DState) : (stepCommand s).jc.resources = s.jc.resources := by unfold stepCommand; split <;> rfl

/-- `stepJavaOpts` leaves the document part of the state unchanged. -/
@[simp] theorem stepJavaOpts_j (s : DState) : (stepJavaOpts s).j = s.j := by unfold stepJavaOpts; split <;> rfl

/-- `stepJavaOpts` leaves this container field unchanged. -/
@[simp] theorem stepJavaOpts_name (s : DState) : (stepJavaOpts s).jc.name = s.jc.name := by unfold stepJavaOpts; split <;> rfl

/-- `stepJavaOpts` leaves this container field unchanged. -/
@[simp] theorem stepJavaOpts_image (s : DState) : (stepJavaOpts s).jc.image = s.jc.image := by unfold stepJavaOpts; split <;> rfl

/-- `stepJavaOpts` leaves this container field unchanged. -/
@[simp] theorem stepJavaOpts_imagePullPolicy (s : DState) : (stepJavaOpts s).jc.imagePullPolicy = s.jc.imagePullPolicy := by unfold stepJavaOpts; split <;> rfl

/-- `stepJavaOpts` leaves this container field unchanged. -/
@[simp] theorem stepJavaOpts_readinessProbe (s : DState) : (stepJavaOpts s).jc.readinessProbe = s.jc.readinessProbe := by unfold stepJavaOpts; split <;> rfl

/-- `stepJavaOpts` leaves this container field unchanged. -/
@[simp] theorem stepJavaOpts_livenessProbe (s : DState) : (stepJavaOpts s).jc.livenessProbe = s.jc.livenessProbe := by unfold stepJavaOpts; split <;> rfl

/-- `stepJavaOpts` leaves this container field unchanged. -/
@[simp] theorem stepJavaOpts_command (s : DState) : (stepJavaOpts s).jc.command = s.jc.command := by unfold stepJavaOpts; split <;> rfl

/-- `stepJavaOpts` leaves this container field unchanged. -/
@[simp] theorem stepJavaOpts_resources (s : DState) : (stepJavaOpts s).jc.resources = s.jc.resources := by unfold stepJavaOpts; split <;> rfl

/-- `stepResources` leaves the document part of the state unchanged. -/
@[simp] theorem stepResources_j (s : DState) : (stepResources s).j = s.j := by unfold stepResources; split <;> rfl

/-- `stepResources` leaves this container field unchanged. -/
@[simp] theorem stepResources_name (s : DState) : (stepResources s).jc.name = s.jc.name := by unfold stepResources; split <;> rfl

/-- `stepResources` leaves this container field unchanged. -/
@[simp] theorem stepResources_image (s : DState) : (stepResources s).jc.image = s.jc.image := by unfold stepResources; split <;> rfl

/-- `stepResources` leaves this container field unchanged. -/
@[simp] theorem stepResources_imagePullPolicy (s : DState) : (stepResources s).jc.imagePullPolicy = s.jc.imagePullPolicy := by unfold stepResources; split <;> rfl

/-- `stepResources` leaves this container field unchanged. -/
@[simp] theorem stepResources_readinessProbe (s : DState) : (stepResources s).jc.readinessProbe = s.jc.readinessProbe := by unfold stepResources; split <;> rfl

/-- `stepResources` leaves this container field unchanged. -/
@[simp] theorem stepResources_livenessProbe (s : DState) : (stepResources s).jc.livenessProbe = s.jc.livenessProbe := by unfold stepResources; split <;> rfl

/-- `stepResources` leaves this container field unchanged. -/
@[simp] theorem stepResources_command (s : DState) : (stepResources s).jc.command = s.jc.command := by unfold stepResources; split <;> rfl

/-- `stepResources` leaves this container field unchanged. -/
@[simp] theorem stepResources_env (s : DState) : (stepResources s).jc.env = s.jc.env := by unfold stepResources; split <;> rfl

/-- `stepBasePlugins` leaves the locally edited container unchanged. -/
@[simp] theorem stepBasePlugins_jc (s : DState) : (stepBasePlugins s).jc = s.jc := by unfold stepBasePlugins; split <;> rfl

/-- `stepBasePlugins` leaves this document field unchanged. -/
@[simp] theorem stepBasePlugins_status (s : DState) : (stepBasePlugins s).j.status = s.j.status := by unfold stepBasePlugins; split <;> rfl

/-- `stepBasePlugins` leaves this document field unchanged. -/
@[simp] theorem stepBasePlugins_annDep (s : DState) : (stepBasePlugins s).j.spec.master.annotationsDeprecated = s.j.spec.master.annotationsDeprecated := by unfold stepBasePlugins; split <;> rfl

/-- `stepBasePlugins` leaves this document field unchanged. -/
@[simp] theorem stepBasePlugins_containers (s : DState) : (stepBasePlugins s).j.spec.master.containers = s.j.spec.master.containers := by unfold stepBasePlugins; split <;> rfl

/-- `stepBasePlugins` leaves this document field unchanged. -/
@[simp] theorem stepBasePlugins_service (s : DState) : (stepBasePlugins s).j.spec.service = s.j.spec.service := by unfold stepBasePlugins; split <;> rfl

/-- `stepBasePlugins` leaves this document field unchanged. -/
@[simp] theorem stepBasePlugins_slaveService (s : DState) : (stepBasePlugins s).j.spec.slaveService = s.j.spec.slaveService := by unfold stepBasePlugins; split <;> rfl

/-- `stepBasePlugins` leaves this document field unchanged. -/
@[simp] theorem stepBasePlugins_backup (s : DState) : (stepBasePlugins s).j.spec.backup = s.j.spec.backup := by unfold stepBasePlugins; split <;> rfl

/-- `stepBasePlugins` leaves this document field unchanged. -/
@[simp] theorem stepBasePlugins_apiSettings (s : DState) : (stepBasePlugins s).j.spec.jenkinsAPISettings = s.j.spec.jenkinsAPISettings := by unfold stepBasePlugins; split <;> rfl

/-- `stepBasePlugins` leaves this document field unchanged. -/
@[simp] theorem stepBasePlugins_seedJobs (s : DState) : (stepBasePlugins s).j.spec.seedJobs = s.j.spec.seedJobs := by unfold stepBasePlugins; split <;> rfl

/-- `stepBasePlugins` leaves this document field unchanged. -/
@[simp] theorem stepBasePlugins_seedAgent (s : DState) : (stepBasePlugins s).j.spec.seedAgent = s.j.spec.seedAgent := by unfold stepBasePlugins; split <;> rfl

/-- `stepService` leaves the locally edited container unchanged. -/
@[simp] theorem stepService_jc (useNodePort : Bool) (s : DState) : (stepService useNodePort s).jc = s.jc := by unfold stepService; split <;> rfl

/-- `stepService` leaves this document field unchanged. -/
@[simp] theorem stepService_status (useNodePort : Bool) (s : DState) : (stepService useNodePort s).j.status = s.j.status := by unfold stepService; split <;> rfl

/-- `stepService` leaves this document field unchanged. -/
@[simp] theorem stepService_annDep (useNodePort : Bool) (s : DState) : (stepService useNodePort s).j.spec.master.annotationsDeprecated = s.j.spec.master.annotationsDeprecated := by unfold stepService; split <;> rfl

/-- `stepService` leaves this document field unchanged. -/
@[simp] theorem stepService_containers (useNodePort : Bool) (s : DState) : (stepService useNodePort s).j.spec.master.containers = s.j.spec.master.containers := by unfold stepService; split <;> rfl

/-- `stepService` leaves this document field unchanged. -/
@[simp] theorem stepService_basePlugins (useNodePort : Bool) (s : DState) : (stepService useNodePort s).j.spec.master.basePlugins = s.j.spec.master.basePlugins := by unfold stepService; split <;> rfl

/-- `stepService` leaves this document field unchanged. -/
@[simp] theorem stepService_slaveService (useNodePort : Bool) (s : DState) : (stepService useNodePort s).j.spec.slaveService = s.j.spec.slaveService := by unfold stepService; split <;> rfl

/-- `stepService` leaves this document field unchanged. -/
@[simp] theorem stepService_backup (useNodePort : Bool) (s : DState) : (stepService useNodePort s).j.spec.backup = s.j.spec.backup := by unfold stepService; split <;> rfl

/-- `stepService` leaves this document field unchanged. -/
@[simp] theorem stepService_apiSettings (useNodePort : Bool) (s : DState) : (stepService useNodePort s).j.spec.jenkinsAPISettings = s.j.spec.jenkinsAPISettings := by unfold stepService; split <;> rfl

/-- `stepService` leaves this document field unchanged. -/
@[simp] theorem stepService_seedJobs (useNodePort : Bool) (s : DState) : (stepService useNodePort s).j.spec.seedJobs = s.j.spec.seedJobs := by unfold stepService; split <;> rfl

/-- `stepService` leaves this document field unchanged. -/
@[simp] theorem stepService_seedAgent (useNodePort : Bool) (s : DState) : (stepService useNodePort s).j.spec.seedAgent = s.j.spec.seedAgent := by unfold stepService; split <;> rfl

/-- `stepSlaveService` leaves the locally edited container unchanged. -/
@[simp] theorem stepSlaveService_jc (s : DState) : (stepSlaveService s).jc = s.jc := by unfold stepSlaveService; split <;> rfl

/-- `stepSlaveService` leaves this document field unchanged. -/
@[simp] theorem stepSlaveService_status (s : DState) : (stepSlaveService s).j.status = s.j.status := by unfold stepSlaveService; split <;> rfl

/-- `stepSlaveService` leaves this document field unchanged. -/
@[simp] theorem stepSlaveService_annDep (s : DState) : (stepSlaveService s).j.spec.master.annotationsDeprecated = s.j.spec.master.annotationsDeprecated := by unfold stepSlaveService; split <;> rfl

/-- `stepSlaveService` leaves this document field unchanged. -/
@[simp] theorem stepSlaveService_containers (s : DState) : (stepSlaveService s).j.spec.master.containers = s.j.spec.master.containers := by unfold stepSlaveService; split <;> rfl

/-- `stepSlaveService` leaves this document field unchanged. -/
@[simp] theorem stepSlaveService_basePlugins (s : DState) : (stepSlaveService s).j.spec.master.basePlugins = s.j.spec.master.basePlugins := by unfold stepSlaveService; split <;> rfl

/-- `stepSlaveService` leaves this document field unchanged. -/
@[simp] theorem stepSlaveService_service (s : DState) : (stepSlaveService s).j.spec.service = s.j.spec.service := by unfold stepSlaveService; split <;> rfl

/-- `stepSlaveService` leaves this document field unchanged. -/
@[simp] theorem stepSlaveService_backup (s : DState) : (stepSlaveService s).j.spec.backup = s.j.spec.backup := by unfold stepSlaveService; split <;> rfl

/-- `stepSlaveService` leaves this document field unchanged. -/
@[simp] theorem stepSlaveService_apiSettings (s : DState) : (stepSlaveService s).j.spec.jenkinsAPISettings = s.j.spec.jenkinsAPISettings := by unfold stepSlaveService; split <;> rfl

/-- `stepSlaveService` leaves this document field unchanged. -/
@[simp] theorem stepSlaveService_seedJobs (s : DState) : (stepSlaveService s).j.spec.seedJobs = s.j.spec.seedJobs := by unfold stepSlaveService; split <;> rfl

/-- `stepSlaveService` leaves this document field unchanged. -/
@[simp] theorem stepSlaveService_seedAgent (s : DState) : (stepSlaveService s).j.spec.seedAgent = s.j.spec.seedAgent := by unfold stepSlaveService; split <;> rfl

/-- `stepOtherContainers` leaves the locally edited container unchanged. -/
@[simp] theorem stepOtherContainers_jc (s : DState) : (stepOtherContainers s).jc = s.jc := by unfold stepOtherContainers; split <;> rfl

/-- `stepOtherContainers` leaves this document field unchanged. -/
@[simp] theorem stepOtherContainers_status (s : DState) : (stepOtherContainers s).j.status = s.j.status := by unfold stepOtherContainers; split <;> rfl

/-- `stepOtherContainers` leaves this document field unchanged. -/
@[simp] theorem stepOtherContainers_annDep (s : DState) : (stepOtherContainers s).j.spec.master.annotationsDeprecated = s.j.spec.master.annotationsDeprecated := by unfold stepOtherContainers; split <;> rfl

/-- `stepOtherContainers` leaves this document field unchanged. -/
@[simp] theorem stepOtherContainers_basePlugins (s : DState) : (stepOtherContainers s).j.spec.master.basePlugins = s.j.spec.master.basePlugins := by unfold stepOtherContainers; split <;> rfl

/-- `stepOtherContainers` leaves this document field unchanged. -/
@[simp] theorem stepOtherContainers_service (s : DState) : (stepOtherContainers s).j.spec.service = s.j.spec.service := by unfold stepOtherContainers; split <;> rfl

/-- `stepOtherContainers` leaves this document field unchanged. -/
@[simp] theorem stepOtherContainers_slaveService (s : DState) : (stepOtherContainers s).j.spec.slaveService = s.j.spec.slaveService := by unfold stepOtherContainers; split <;> rfl

/-- `stepOtherContainers` leaves this document field unchanged. -/
@[simp] theorem stepOtherContainers_backup (s : DState) : (stepOtherContainers s).j.spec.backup = s.j.spec.backup := by unfold stepOtherContainers; split <;> rfl

/-- `stepOtherContainers` leaves this document field unchanged. -/
@[simp] theorem stepOtherContainers_apiSettings (s : DState) : (stepOtherContainers s).j.spec.jenkinsAPISettings = s.j.spec.jenkinsAPISettings := by unfold stepOtherContainers; split <;> rfl

/-- `stepOtherContainers` leaves this document field unchanged. -/
@[simp] theorem stepOtherContainers_seedJobs (s : DState) : (stepOtherContainers s).j.spec.seedJobs = s.j.spec.seedJobs := by unfold stepOtherContainers; split <;> rfl

/-- `stepOtherContainers` leaves this document field unchanged. -/
@[simp] theorem stepOtherContainers_seedAgent (s : DState) : (stepOtherContainers s).j.spec.seedAgent = s.j.spec.seedAgent := by unfold stepOtherContainers; split <;> rfl

/-- `stepBackup` leaves the locally edited container unchanged. -/
@[simp] theorem stepBackup_jc (s : DState) : (stepBackup s).jc = s.jc := by unfold stepBackup; split <;> rfl

/-- `stepBackup` leaves this document field unchanged. -/
@[simp] theorem stepBackup_status (s : DState) : (stepBackup s).j.status = s.j.status := by unfold stepBackup; split <;> rfl

/-- `stepBackup` leaves this document field unchanged. -/
@[simp] theorem stepBackup_annDep (s : DState) : (stepBackup s).j.spec.master.annotationsDeprecated = s.j.spec.master.annotationsDeprecated := by unfold stepBackup; split <;> rfl

/-- `stepBackup` leaves this document field unchanged. -/
@[simp] theorem stepBackup_containers (s : DState) : (stepBackup s).j.spec.master.containers = s.j.spec.master.containers := by unfold stepBackup; split <;> rfl

/-- `stepBackup` leaves this document field unchanged. -/
@[simp] theorem stepBackup_basePlugins (s : DState) : (stepBackup s).j.spec.master.basePlugins = s.j.spec.master.basePlugins := by unfold stepBackup; split <;> rfl

/-- `stepBackup` leaves this document field unchanged. -/
@[simp] theorem stepBackup_service (s : DState) : (stepBackup s).j.spec.service = s.j.spec.service := by unfold stepBackup; split <;> rfl

/-- `stepBackup` leaves this document field unchanged. -/
@[simp] theorem stepBackup_slaveService (s : DState) : (stepBackup s).j.spec.slaveService = s.j.spec.slaveService := by unfold stepBackup; split <;> rfl

/-- `stepBackup` leaves this document field unchanged. -/
@[simp] theorem stepBackup_apiSettings (s : DState) : (stepBackup s).j.spec.jenkinsAPISettings = s.j.spec.jenkinsAPISettings := by unfold stepBackup; split <;> rfl

/-- `stepBackup` leaves this document field unchanged. -/
@[simp] theorem stepBackup_seedJobs (s : DState) : (stepBackup s).j.spec.seedJobs = s.j.spec.seedJobs := by unfold stepBackup; split <;> rfl

/-- `stepBackup` leaves this document field unchanged. -/
@[simp] theorem stepBackup_seedAgent (s : DState) : (stepBackup s).j.spec.seedAgent = s.j.spec.seedAgent := by unfold stepBackup; split <;> rfl

/-- `stepWriteBack` leaves the locally edited container unchanged. -/
@[simp] theorem stepWriteBack_jc (s : DState) : (stepWriteBack s).jc = s.jc := rfl

/-- `stepWriteBack` leaves this document field unchanged. -/
@[simp] theorem stepWriteBack_status (s : DState) : (stepWriteBack s).j.status = s.j.status := rfl

/-- `stepWriteBack` leaves this document field unchanged. -/
@[simp] theorem stepWriteBack_annDep (s : DState) : (stepWriteBack s).j.spec.master.annotationsDeprecated = s.j.spec.master.annotationsDeprecated := rfl

/-- `stepWriteBack` leaves this document field unchanged. -/
@[simp] theorem stepWriteBack_basePlugins (s : DState) : (stepWriteBack s).j.spec.master.basePlugins = s.j.spec.master.basePlugins := rfl

/-- `stepWriteBack` leaves this document field unchanged. -/
@[simp] theorem stepWriteBack_service (s : DState) : (stepWriteBack s).j.spec.service = s.j.spec.service := rfl

/-- `stepWriteBack` leaves this document field unchanged. -/
@[simp] theorem stepWriteBack_slaveService (s : DState) : (stepWriteBack s).j.spec.slaveService = s.j.spec.slaveService := rfl

/-- `stepWriteBack` leaves this document field unchanged. -/
@[simp] theorem stepWriteBack_backup (s : DState) : (stepWriteBack s).j.spec.backup = s.j.spec.backup := rfl

/-- `stepWriteBack` leaves this document field unchanged. -/
@[simp] theorem stepWriteBack_apiSettings (s : DState) : (stepWriteBack s).j.spec.jenkinsAPISettings = s.j.spec.jenkinsAPISettings := rfl

/-- `stepWriteBack` leaves this document field unchanged. -/
@[simp] theorem stepWriteBack_seedJobs (s : DState) : (stepWriteBack s).j.spec.seedJobs = s.j.spec.seedJobs := rfl

/-- `stepWriteBack` leaves this document field unchanged. -/
@[simp] theorem stepWriteBack_seedAgent (s : DState) : (stepWriteBack s).j.spec.seedAgent = s.j.spec.seedAgent := rfl

/-- `stepAPISettings` leaves the locally edited container unchanged. -/
@[simp] theorem stepAPISettings_jc (s : DState) : (stepAPISettings s).jc = s.jc := by unfold stepAPISettings; split <;> rfl

/-- `stepAPISettings` leaves this document field unchanged. -/
@[simp] theorem stepAPISettings_status (s : DState) : (stepAPISettings s).j.status = s.j.status := by unfold stepAPISettings; split <;> rfl

/-- `stepAPISettings` leaves this document field unchanged. -/
@[simp] theorem stepAPISettings_annDep (s : DState) : (stepAPISettings s).j.spec.master.annotationsDeprecated = s.j.spec.master.annotationsDeprecated := by unfold stepAPISettings; split <;> rfl

/-- `stepAPISettings` leaves this document field unchanged. -/
@[simp] theorem stepAPISettings_containers (s : DState) : (stepAPISettings s).j.spec.master.containers = s.j.spec.master.containers := by unfold stepAPISettings; split <;> rfl

/-- `stepAPISettings` leaves this document field unchanged. -/
@[simp] theorem stepAPISettings_basePlugins (s : DState) : (stepAPISettings s).j.spec.master.basePlugins = s.j.spec.master.basePlugins := by unfold stepAPISettings; split <;> rfl

/-- `stepAPISettings` leaves this document field unchanged. -/
@[simp] theorem stepAPISettings_service (s : DState) : (stepAPISettings s).j.spec.service = s.j.spec.service := by unfold stepAPISettings; split <;> rfl

/-- `stepAPISettings` leaves this document field unchanged. -/
@[simp] theorem stepAPISettings_slaveService (s : DState) : (stepAPISettings s).j.spec.slaveService = s.j.spec.slaveService := by unfold stepAPISettings; split <;> rfl

/-- `stepAPISettings` leaves this document field unchanged. -/
@[simp] theorem stepAPISettings_backup (s : DState) : (stepAPISettings s).j.spec.backup = s.j.spec.backup := by unfold stepAPISettings; split <;> rfl

/-- `stepAPISettings` leaves this document field unchanged. -/
@[simp] theorem stepAPISettings_seedJobs (s : DState) : (stepAPISettings s).j.spec.seedJobs = s.j.spec.seedJobs := by unfold stepAPISettings; split <;> rfl

/-- `stepAPISettings` leaves this document field unchanged. -/
@[simp] theorem stepAPISettings_seedAgent (s : DState) : (stepAPISettings s).j.spec.seedAgent = s.j.spec.seedAgent := by unfold stepAPISettings; split <;> rfl

/-- `stepAuthorizationStrategy` leaves the locally edited container unchanged. -/
@[simp] theorem stepAuthorizationStrategy_jc (s : DState) : (stepAuthorizationStrategy s).jc = s.jc := by unfold stepAuthorizationStrategy; split <;> rfl

/-- `stepAuthorizationStrategy` leaves this document field unchanged. -/
@[simp] theorem stepAuthorizationStrategy_status (s : DState) : (stepAuthorizationStrategy s).j.status = s.j.status := by unfold stepAuthorizationStrategy; split <;> rfl

/-- `stepAuthorizationStrategy` leaves this document field unchanged. -/
@[simp] theorem stepAuthorizationStrategy_annDep (s : DState) : (stepAuthorizationStrategy s).j.spec.master.annotationsDeprecated = s.j.spec.master.annotationsDeprecated := by unfold stepAuthorizationStrategy; split <;> rfl

/-- `stepAuthorizationStrategy` leaves this document field unchanged. -/
@[simp] theorem stepAuthorizationStrategy_containers (s : DState) : (stepAuthorizationStrategy s).j.spec.master.containers = s.j.spec.master.containers := by unfold stepAuthorizationStrategy; split <;> rfl

/-- `stepAuthorizationStrategy` leaves this document field unchanged. -/
@[simp] theorem stepAuthorizationStrategy_basePlugins (s : DState) : (stepAuthorizationStrategy s).j.spec.master.basePlugins = s.j.spec.master.basePlugins := by unfold stepAuthorizationStrategy; split <;> rfl

/-- `stepAuthorizationStrategy` leaves this document field unchanged. -/
@[simp] theorem stepAuthorizationStrategy_service (s : DState) : (stepAuthorizationStrategy s).j.spec.service = s.j.spec.service := by unfold stepAuthorizationStrategy; split <;> rfl

/-- `stepAuthorizationStrategy` leaves this document field unchanged. -/
@[simp] theorem stepAuthorizationStrategy_slaveService (s : DState) : (stepAuthorizationStrategy s).j.spec.slaveService = s.j.spec.slaveService := by unfold stepAuthorizationStrategy; split <;> rfl

/-- `stepAuthorizationStrategy` leaves this document field unchanged. -/
@[simp] theorem stepAuthorizationStrategy_backup (s : DState) : (stepAuthorizationStrategy s).j.spec.backup = s.j.spec.backup := by unfold stepAuthorizationStrategy; split <;> rfl

/-- `stepAuthorizationStrategy` leaves this document field unchanged. -/
@[simp] theorem stepAuthorizationStrategy_seedJobs (s : DState) : (stepAuthorizationStrategy s).j.spec.seedJobs = s.j.spec.seedJobs := by unfold stepAuthorizationStrategy; split <;> rfl

/-- `stepAuthorizationStrategy` leaves this document field unchanged. -/
@[simp] theorem stepAuthorizationStrategy_seedAgent (s : DState) : (stepAuthorizationStrategy s).j.spec.seedAgent = s.j.spec.seedAgent := by unfold stepAuthorizationStrategy; split <;> rfl

/-- `stepSeedAgent` leaves the locally edited container unchanged. -/
@[simp] theorem stepSeedAgent_jc (s : DState) : (stepSeedAgent s).jc = s.jc := by unfold stepSeedAgent; split <;> rfl

/-- `stepSeedAgent` leaves this document field unchanged. -/
@[simp] theorem stepSeedAgent_status (s : DState) : (stepSeedAgent s).j.status = s.j.status := by unfold stepSeedAgent; split <;> rfl

/-- `stepSeedAgent` leaves this document field unchanged. -/
@[simp] theorem stepSeedAgent_annDep (s : DState) : (stepSeedAgent s).j.spec.master.annotationsDeprecated = s.j.spec.master.annotationsDeprecated := by unfold stepSeedAgent; split <;> rfl

/-- `stepSeedAgent` leaves this document field unchanged. -/
@[simp] theorem stepSeedAgent_containers (s : DState) : (stepSeedAgent s).j.spec.master.containers = s.j.spec.master.containers := by unfold stepSeedAgent; split <;> rfl

/-- `stepSeedAgent` leaves this document field unchanged. -/
@[simp] theorem stepSeedAgent_basePlugins (s : DState) : (stepSeedAgent s).j.spec.master.basePlugins = s.j.spec.master.basePlugins := by unfold stepSeedAgent; split <;> rfl

/-- `stepSeedAgent` leaves this document field unchanged. -/
@[simp] theorem stepSeedAgent_service (s : DState) : (stepSeedAgent s).j.spec.service = s.j.spec.service := by unfold stepSeedAgent; split <;> rfl

/-- `stepSeedAgent` leaves this document field unchanged. -/
@[simp] theorem stepSeedAgent_slaveService (s : DState) : (stepSeedAgent s).j.spec.slaveService = s.j.spec.slaveService := by unfold stepSeedAgent; split <;> rfl

/-- `stepSeedAgent` leaves this document field unchanged. -/
@[simp] theorem stepSeedAgent_backup (s : DState) : (stepSeedAgent s).j.spec.backup = s.j.spec.backup := by unfold stepSeedAgent; split <;> rfl

/-- `stepSeedAgent` leaves this document field unchanged. -/
@[simp] theorem stepSeedAgent_apiSettings (s : DState) : (stepSeedAgent s).j.spec.jenkinsAPISettings = s.j.spec.jenkinsAPISettings := by unfold stepSeedAgent; split <;> rfl

/-- `stepSeedAgent` leaves this document field unchanged. -/
@[simp] theorem stepSeedAgent_seedJobs (s : DState) : (stepSeedAgent s).j.spec.seedJobs = s.j.spec.seedJobs := by unfold stepSeedAgent; split <;> rfl


/-- After `stepImage` the master image is set. -/
theorem stepImage_post (s : DState) : (stepImage s).jc.image ≠ "" := by
  unfold stepImage; split
  · show defaultJenkinsMasterImage ≠ ""
    decide
  · assumption

/-- After `stepPullPolicy` the master pull policy is set. -/
theorem stepPullPolicy_post (s : DState) : (stepPullPolicy s).jc.imagePullPolicy ≠ "" := by
  unfold stepPullPolicy; split
  · show pullAlways ≠ ""
    decide
  · assumption

/-- After `stepReadinessProbe` the readiness probe is set. -/
theorem stepReadinessProbe_post (s : DState) : (stepReadinessProbe s).jc.readinessProbe ≠ none := by
  unfold stepReadinessProbe; split
  · simp
  · assumption

/-- After `stepLivenessProbe` the liveness probe is set. -/
theorem stepLivenessProbe_post (s : DState) : (stepLivenessProbe s).jc.livenessProbe ≠ none := by
  unfold stepLivenessProbe; split
  · simp
  · assumption

/-- After `stepCommand` the container command is set. -/
theorem stepCommand_post (s : DState) : (stepCommand s).jc.command ≠ [] := by
  unfold stepCommand; split
  · show jenkinsMasterContainerBaseCommand ≠ []
    decide
  · assumption

/-- After `stepJavaOpts` the JVM-options environment variable is present. -/
theorem stepJavaOpts_post (s : DState) :
    ((stepJavaOpts s).jc.env.any (fun e => e.name == javaOpsVariableName)) = true := by
  unfold stepJavaOpts isJavaOpsVariableNotSet; split
  · simp
  · simp_all

/-- After `stepResources` the master resource requirements are set. -/
theorem stepResources_post (s : DState) :
    (stepResources s).jc.resources ≠ emptyResourceRequirements := by
  unfold stepResources; split
  · show newResourceRequirements "1" "500Mi" "1500m" "3Gi" ≠ emptyResourceRequirements
    decide
  · simp_all [isResourceRequirementsNotSet]

/-- After `stepBasePlugins` the plugin list is non-empty. -/
theorem stepBasePlugins_post (s : DState) : (stepBasePlugins s).j.spec.master.basePlugins ≠ [] := by
  unfold stepBasePlugins; split
  · show basePlugins ≠ []
    decide
  · assumption

/-- After `stepService` the master service is set. -/
theorem stepService_post (useNodePort : Bool) (s : DState) :
    (stepService useNodePort s).j.spec.service ≠ emptyService := by
  unfold stepService; split
  · intro hEq
    have hp := congrArg Service.port hEq
    simp [emptyService, defaultHTTPPort] at hp
  · assumption

/-- After `stepSlaveService` the slave service is set. -/
theorem stepSlaveService_post (s : DState) :
    (stepSlaveService s).j.spec.slaveService ≠ emptyService := by
  unfold stepSlaveService; split
  · show (⟨serviceTypeClusterIP, defaultSlavePort⟩ : Service) ≠ emptyService
    decide
  · assumption

/-- After `stepBackup` the backup interval is set whenever a backup container
is configured. -/
theorem stepBackup_post (s : DState) :
    ¬((stepBackup s).j.spec.backup.containerName ≠ "" ∧
      (stepBackup s).j.spec.backup.interval = 0) := by
  unfold stepBackup; split
  · simp
  · assumption

/-- After `stepAuthorizationStrategy` the authorization strategy is set. -/
theorem stepAuthorizationStrategy_post (s : DState) :
    (stepAuthorizationStrategy s).j.spec.jenkinsAPISettings.authorizationStrategy ≠ "" := by
  unfold stepAuthorizationStrategy; split
  · show createUserAuthorizationStrategy ≠ ""
    decide
  · assumption

/-- After `stepSeedAgent` the agent image is set whenever seed jobs are
configured. -/
theorem stepSeedAgent_post (s : DState) :
    ¬((stepSeedAgent s).j.spec.seedJobs ≠ [] ∧ (stepSeedAgent s).j.spec.seedAgent.image = "") := by
  unfold stepSeedAgent; split
  · intro h
    have h2 : defaultJenkinsAgentImage = "" := h.2
    simp [defaultJenkinsAgentImage] at h2
  · assumption

/-- `setDefaultsForContainer` establishes the secondary-container normal
form. -/
theorem setDefaultsForContainer_post (c : Container) :
    SecondaryNormal (setDefaultsForContainer c).1 := by
  unfold SecondaryNormal setDefaultsForContainer
  dsimp only
  constructor <;> split <;> split <;>
    first
      | (show pullAlways ≠ ""; decide)
      | assumption
      | (show newResourceRequirements "50m" "50Mi" "100m" "100Mi" ≠ emptyResourceRequirements
         decide)
      | simp_all [isResourceRequirementsNotSet]


/-- `stepImage` is the identity once the image is set. -/
theorem stepImage_id (s : DState) (h : s.jc.image ≠ "") : stepImage s = s := by
  unfold stepImage; rw [if_neg h]

/-- `stepPullPolicy` is the identity once the pull policy is set. -/
theorem stepPullPolicy_id (s : DState) (h : s.jc.imagePullPolicy ≠ "") : stepPullPolicy s = s := by
  unfold stepPullPolicy; rw [if_neg h]

/-- `stepReadinessProbe` is the identity once the probe is set. -/
theorem stepReadinessProbe_id (s : DState) (h : s.jc.readinessProbe ≠ none) :
    stepReadinessProbe s = s := by
  unfold stepReadinessProbe; rw [if_neg h]

/-- `stepLivenessProbe` is the identity once the probe is set. -/
theorem stepLivenessProbe_id (s : DState) (h : s.jc.livenessProbe ≠ none) :
    stepLivenessProbe s = s := by
  unfold stepLivenessProbe; rw [if_neg h]

/-- `stepCommand` is the identity once the command is set. -/
theorem stepCommand_id (s : DState) (h : s.jc.command ≠ []) : stepCommand s = s := by
  unfold stepCommand; rw [if_neg h]

/-- `stepJavaOpts` is the identity once the JVM-options variable is present. -/
theorem stepJavaOpts_id (s : DState) (h : isJavaOpsVariableNotSet s.jc = false) :
    stepJavaOpts s = s := by
  unfold stepJavaOpts; rw [if_neg (by simp [h])]

/-- `stepResources` is the identity once the requirements are set. -/
theorem stepResources_id (s : DState) (h : s.jc.resources ≠ emptyResourceRequirements) :
    stepResources s = s := by
  unfold stepResources; rw [if_neg (by simp [isResourceRequirementsNotSet, h])]

/-- `stepBasePlugins` is the identity once the plugin list is non-empty. -/
theorem stepBasePlugins_id (s : DState) (h : s.j.spec.master.basePlugins ≠ []) :
    stepBasePlugins s = s := by
  unfold stepBasePlugins; rw [if_neg h]

/-- `stepService` is the identity once the service is set. -/
theorem stepService_id (useNodePort : Bool) (s : DState) (h : s.j.spec.service ≠ emptyService) :
    stepService useNodePort s = s := by
  unfold stepService; rw [if_neg h]

/-- `stepSlaveService` is the identity once the slave service is set. -/
theorem stepSlaveService_id (s : DState) (h : s.j.spec.slaveService ≠ emptyService) :
    stepSlaveService s = s := by
  unfold stepSlaveService; rw [if_neg h]

/-- `setDefaultsForContainer` is the identity on a normalized secondary
container. -/
theorem setDefaultsForContainer_id (c : Container) (h : SecondaryNormal c) :
    setDefaultsForContainer c = (c, false) := by
  obtain ⟨h1, h2⟩ := h
  unfold setDefaultsForContainer
  dsimp only
  rw [if_neg h1, if_neg (by simp [isResourceRequirementsNotSet, h2])]

/-- Mapping `setDefaultsForContainer` over normalized secondary containers
changes nothing. -/
theorem mapSecondary_id (l : List Container) (h : ∀ c ∈ l, SecondaryNormal c) :
    (l.map setDefaultsForContainer).map (fun p => p.1) = l ∧
    (l.map setDefaultsForContainer).any (fun p => p.2) = false := by
  induction l with
  | nil => simp
  | cons a t ih =>
    have ha := setDefaultsForContainer_id a (h a (by simp))
    have ht := ih (fun c hc => h c (by simp [hc]))
    simp [ha, ht.1, ht.2]

/-- `stepOtherContainers` is the identity once every secondary container is
normalized. -/
theorem stepOtherContainers_id (s : DState)
    (h : ∀ c ∈ s.j.spec.master.containers.drop 1, SecondaryNormal c) :
    stepOtherContainers s = s := by
  unfold stepOtherContainers
  split
  · rfl
  · rename_i c0 rest heq
    have hrest : ∀ c ∈ rest, SecondaryNormal c := fun c hc => h c (by simp [heq, hc])
    obtain ⟨hm, ha⟩ := mapSecondary_id rest hrest
    dsimp only
    rw [hm, ha, Bool.or_false, ← heq]

/-- `stepBackup` is the identity once the backup interval is consistent. -/
theorem stepBackup_id (s : DState)
    (h : ¬(s.j.spec.backup.containerName ≠ "" ∧ s.j.spec.backup.interval = 0)) :
    stepBackup s = s := by
  unfold stepBackup; rw [if_neg h]

/-- `stepWriteBack` is the identity when the head of the container list is the
locally edited container. -/
theorem stepWriteBack_id (s : DState)
    (h : s.j.spec.master.containers = s.jc :: s.j.spec.master.containers.drop 1) :
    stepWriteBack s = s := by
  unfold stepWriteBack; rw [← h]

/-- `stepAPISettings` is the identity once the strategy is set. -/
theorem stepAPISettings_id (s : DState)
    (h : s.j.spec.jenkinsAPISettings.authorizationStrategy ≠ "") :
    stepAPISettings s = s := by
  unfold stepAPISettings
  rw [if_neg (fun heq => h (by rw [heq]))]

/-- `stepAuthorizationStrategy` is the identity once the strategy is set. -/
theorem stepAuthorizationStrategy_id (s : DState)
    (h : s.j.spec.jenkinsAPISettings.authorizationStrategy ≠ "") :
    stepAuthorizationStrategy s = s := by
  unfold stepAuthorizationStrategy; rw [if_neg h]

/-- `stepSeedAgent` is the identity once the agent image is consistent. -/
theorem stepSeedAgent_id (s : DState)
    (h : ¬(s.j.spec.seedJobs ≠ [] ∧ s.j.spec.seedAgent.image = "")) :
    stepSeedAgent s = s := by
  unfold stepSeedAgent; rw [if_neg h]


/-- `setDefaultsCore` is the projection of the full chain. -/
theorem setDefaultsCore_eq (u : Bool) (j : Jenkins) (jc : Container) (ch : Bool) :
    setDefaultsCore u j jc ch = ((coreState u j jc ch).j, (coreState u j jc ch).changed, none) :=
  rfl

/-- The master-container half of the chain establishes the primary-container
normal form. -/
theorem midState_master_normal (j : Jenkins) (jc : Container) (ch : Bool)
    (hname : jc.name = jenkinsMasterContainerName) : MasterNormal (midState j jc ch).jc := by
  refine ⟨?_, ?_, ?_, ?_, ?_, ?_, ?_, ?_⟩
  · simp [midState, hname]
  · simpa [midState] using stepImage_post ⟨j, jc, ch⟩
  · simpa [midState] using stepPullPolicy_post (stepImage ⟨j, jc, ch⟩)
  · simpa [midState] using
      stepReadinessProbe_post (stepPullPolicy (stepImage ⟨j, jc, ch⟩))
  · simpa [midState] using
      stepLivenessProbe_post (stepReadinessProbe (stepPullPolicy (stepImage ⟨j, jc, ch⟩)))
  · simpa [midState] using
      stepCommand_post (stepLivenessProbe (stepReadinessProbe (stepPullPolicy
        (stepImage ⟨j, jc, ch⟩))))
  · simp [midState, isJavaOpsVariableNotSet, stepJavaOpts_post]
  · simpa [midState] using
      stepResources_post (stepBasePlugins (stepJavaOpts (stepCommand (stepLivenessProbe
        (stepReadinessProbe (stepPullPolicy (stepImage ⟨j, jc, ch⟩)))))))

/-- The chain's final plugin list is non-empty. -/
theorem coreState_basePlugins (u : Bool) (j : Jenkins) (jc : Container) (ch : Bool) :
    (coreState u j jc ch).j.spec.master.basePlugins ≠ [] := by
  simpa [coreState, midState] using
    stepBasePlugins_post (stepJavaOpts (stepCommand (stepLivenessProbe (stepReadinessProbe
      (stepPullPolicy (stepImage ⟨j, jc, ch⟩))))))

/-- The chain's final master service is set. -/
theorem coreState_service (u : Bool) (j : Jenkins) (jc : Container) (ch : Bool) :
    (coreState u j jc ch).j.spec.service ≠ emptyService := by
  simpa [coreState] using stepService_post u (midState j jc ch)

/-- The chain's final slave service is set. -/
theorem coreState_slaveService (u : Bool) (j : Jenkins) (jc : Container) (ch : Bool) :
    (coreState u j jc ch).j.spec.slaveService ≠ emptyService := by
  simpa [coreState] using stepSlaveService_post (stepService u (midState j jc ch))

/-- The chain's final backup configuration is consistent. -/
theorem coreState_backup (u : Bool) (j : Jenkins) (jc : Container) (ch : Bool) :
    ¬((coreState u j jc ch).j.spec.backup.containerName ≠ "" ∧
      (coreState u j jc ch).j.spec.backup.interval = 0) := by
  simpa [coreState] using
    stepBackup_post (stepOtherContainers (stepSlaveService (stepService u (midState j jc ch))))

/-- The chain's final authorization strategy is set. -/
theorem coreState_auth (u : Bool) (j : Jenkins) (jc : Container) (ch : Bool) :
    (coreState u j jc ch).j.spec.jenkinsAPISettings.authorizationStrategy ≠ "" := by
  simpa [coreState] using
    stepAuthorizationStrategy_post (stepAPISettings (stepWriteBack (stepBackup
      (stepOtherContainers (stepSlaveService (stepService u (midState j jc ch)))))))

/-- The chain's final seed-agent configuration is consistent. -/
theorem coreState_seed (u : Bool) (j : Jenkins) (jc : Container) (ch : Bool) :
    ¬((coreState u j jc ch).j.spec.seedJobs ≠ [] ∧
      (coreState u j jc ch).j.spec.seedAgent.image = "") := by
  simpa [coreState] using
    stepSeedAgent_post (stepAuthorizationStrategy (stepAPISettings (stepWriteBack (stepBackup
      (stepOtherContainers (stepSlaveService (stepService u (midState j jc ch))))))))

/-- The chain leaves the document status unchanged. -/
theorem coreState_status (u : Bool) (j : Jenkins) (jc : Container) (ch : Bool) :
    (coreState u j jc ch).j.status = j.status := by
  simp [coreState, midState]

/-- The chain leaves the deprecated annotations unchanged. -/
theorem coreState_annDep (u : Bool) (j : Jenkins) (jc : Container) (ch : Bool) :
    (coreState u j jc ch).j.spec.master.annotationsDeprecated =
      j.spec.master.annotationsDeprecated := by
  simp [coreState, midState]

/-- The container list written back by `stepWriteBack`. -/
theorem stepWriteBack_containersEq (s : DState) :
    (stepWriteBack s).j.spec.master.containers =
      s.jc :: s.j.spec.master.containers.drop 1 := rfl

/-- `stepOtherContainers` on an empty container list. -/
theorem stepOtherContainers_containersNil (s : DState)
    (h : s.j.spec.master.containers = []) :
    (stepOtherContainers s).j.spec.master.containers = [] := by
  unfold stepOtherContainers
  rw [h]
  exact h

/-- `stepOtherContainers` on a non-empty container list defaults the tail. -/
theorem stepOtherContainers_containersEq (s : DState) (c0 : Container) (rest : List Container)
    (h : s.j.spec.master.containers = c0 :: rest) :
    (stepOtherContainers s).j.spec.master.containers =
      c0 :: (rest.map setDefaultsForContainer).map (fun p => p.1) := by
  unfold stepOtherContainers
  rw [h]

/-- The chain's final container list: the normalized master container followed
by the defaulted secondary containers. -/
theorem coreState_containers (u : Bool) (j : Jenkins) (jc : Container) (ch : Bool) :
    (coreState u j jc ch).j.spec.master.containers =
      (midState j jc ch).jc ::
        (j.spec.master.containers.drop 1).map (fun c => (setDefaultsForContainer c).1) := by
  have hSm : (stepSlaveService (stepService u (midState j jc ch))).j.spec.master.containers
      = j.spec.master.containers := by simp [midState]
  unfold coreState
  rw [stepSeedAgent_containers, stepAuthorizationStrategy_containers,
    stepAPISettings_containers, stepWriteBack_containersEq, stepBackup_jc,
    stepOtherContainers_jc, stepSlaveService_jc, stepService_jc, stepBackup_containers]
  cases hc : j.spec.master.containers with
  | nil =>
    rw [stepOtherContainers_containersNil _ (hSm.trans hc)]
    simp
  | cons c0 rest =>
    rw [stepOtherContainers_containersEq _ c0 rest (hSm.trans hc)]
    simp [List.map_map, Function.comp]

/-- The chain always outputs a normalized document, provided the master
container carries the reserved name. -/
theorem coreState_normalized (u : Bool) (j : Jenkins) (jc : Container) (ch : Bool)
    (hname : jc.name = jenkinsMasterContainerName) : Normalized (coreState u j jc ch).j := by
  refine ⟨⟨(midState j jc ch).jc,
    (j.spec.master.containers.drop 1).map (fun c => (setDefaultsForContainer c).1),
    coreState_containers u j jc ch, midState_master_normal j jc ch hname, ?_⟩,
    coreState_basePlugins u j jc ch, coreState_service u j jc ch,
    coreState_slaveService u j jc ch, coreState_backup u j jc ch,
    coreState_auth u j jc ch, coreState_seed u j jc ch⟩
  intro c hc
  obtain ⟨c', _, rfl⟩ := List.mem_map.mp hc
  exact setDefaultsForContainer_post c'

/-- A successful `setDefaults` outputs a normalized document. -/
theorem setDefaults_normalized (u : Bool) (j j1 : Jenkins) (c : Bool)
    (h : setDefaults u j = (j1, c, none)) : Normalized j1 := by
  cases hc : j.spec.master.containers with
  | nil =>
    have he : setDefaults u j = setDefaultsCore u j
        ⟨jenkinsMasterContainerName, "", "", none, none, [], [], emptyResourceRequirements⟩
        true := by
      unfold setDefaults; rw [hc]
    rw [he, setDefaultsCore_eq] at h
    simp only [Prod.mk.injEq] at h
    rw [← h.1]
    exact coreState_normalized u j _ true rfl
  | cons c0 rest =>
    by_cases hname : c0.name ≠ jenkinsMasterContainerName
    · have he : setDefaults u j = (j, false, some firstContainerError) := by
        unfold setDefaults; rw [hc]; dsimp only; rw [if_pos hname]
      rw [he] at h
      exact absurd (congrArg (fun p => p.2.2) h) (by simp)
    · have he : setDefaults u j = setDefaultsCore u j c0 false := by
        unfold setDefaults; rw [hc]; dsimp only; rw [if_neg hname]
      rw [he, setDefaultsCore_eq] at h
      simp only [Prod.mk.injEq] at h
      rw [← h.1]
      exact coreState_normalized u j c0 false (not_not.mp hname)

/-- `setDefaults` is the identity (with no change reported) on a normalized
document. -/
theorem setDefaults_fixpoint (u : Bool) (j : Jenkins) (h : Normalized j) :
    setDefaults u j = (j, false, none) := by
  obtain ⟨⟨c0, rest, hc, hm, hsec⟩, hbp, hsvc, hslave, hbackup, hauth, hseed⟩ := h
  obtain ⟨hname, himg, hpol, hread, hlive, hcmd, hjava, hres⟩ := hm
  have hcore : coreState u j c0 false = ⟨j, c0, false⟩ := by
    unfold coreState midState
    rw [stepImage_id ⟨j, c0, false⟩ himg,
      stepPullPolicy_id ⟨j, c0, false⟩ hpol,
      stepReadinessProbe_id ⟨j, c0, false⟩ hread,
      stepLivenessProbe_id ⟨j, c0, false⟩ hlive,
      stepCommand_id ⟨j, c0, false⟩ hcmd,
      stepJavaOpts_id ⟨j, c0, false⟩ hjava,
      stepBasePlugins_id ⟨j, c0, false⟩ hbp,
      stepResources_id ⟨j, c0, false⟩ hres,
      stepService_id u ⟨j, c0, false⟩ hsvc,
      stepSlaveService_id ⟨j, c0, false⟩ hslave,
      stepOtherContainers_id ⟨j, c0, false⟩ (by
        intro cc hcc
        exact hsec cc (by simpa [hc] using hcc)),
      stepBackup_id ⟨j, c0, false⟩ hbackup,
      stepWriteBack_id ⟨j, c0, false⟩ (by simp [hc]),
      stepAPISettings_id ⟨j, c0, false⟩ hauth,
      stepAuthorizationStrategy_id ⟨j, c0, false⟩ hauth,
      stepSeedAgent_id ⟨j, c0, false⟩ hseed]
  have he : setDefaults u j = setDefaultsCore u j c0 false := by
    unfold setDefaults; rw [hc]; dsimp only; rw [if_neg (fun hne => hne hname)]
  rw [he, setDefaultsCore_eq, hcore]

/-- `setDefaults` never touches the deprecated annotations. -/
theorem setDefaults_annDep (u : Bool) (j : Jenkins) :
    (setDefaults u j).1.spec.master.annotationsDeprecated =
      j.spec.master.annotationsDeprecated := by
  cases hc : j.spec.master.containers with
  | nil =>
    have he : setDefaults u j = setDefaultsCore u j
        ⟨jenkinsMasterContainerName, "", "", none, none, [], [], emptyResourceRequirements⟩
        true := by
      unfold setDefaults; rw [hc]
    simp only [he, setDefaultsCore_eq]
    exact coreState_annDep u j _ true
  | cons c0 rest =>
    by_cases hname : c0.name ≠ jenkinsMasterContainerName
    · have he : setDefaults u j = (j, false, some firstContainerError) := by
        unfold setDefaults; rw [hc]; dsimp only; rw [if_pos hname]
      simp only [he]
    · have he : setDefaults u j = setDefaultsCore u j c0 false := by
        unfold setDefaults; rw [hc]; dsimp only; rw [if_neg hname]
      simp only [he, setDefaultsCore_eq]
      exact coreState_annDep u j c0 false

/-- C8: the Defaulting Engine is idempotent — if `setDefaults` succeeds on a
document, applying it again to the result returns the same document and
reports that nothing changed. -/
theorem setDefaults_idempotent (u : Bool) (j j1 : Jenkins) (c : Bool)
    (h : setDefaults u j = (j1, c, none)) :
    setDefaults u j1 = (j1, false, none) :=
  setDefaults_fixpoint u j1 (setDefaults_normalized u j j1 c h)

set_option maxHeartbeats 2000000 in
/-- Witness for C8 at the concrete empty document. -/
theorem setDefaults_idempotent_witness :
    setDefaults false ((setDefaults false emptyDoc).1) =
      ((setDefaults false emptyDoc).1, false, none) :=
  setDefaults_idempotent false emptyDoc (setDefaults false emptyDoc).1
    (setDefaults false emptyDoc).2.1 rfl

/-- C9: on a document whose first container does not carry the reserved
managed-application name, the Defaulting Engine returns the validation error
and leaves the document unchanged, and the inner reconcile surfaces the error
with no notification and no persistence. -/
theorem setDefaults_wrong_name (u : Bool) (j : Jenkins) (c0 : Container)
    (rest : List Container) (hc : j.spec.master.containers = c0 :: rest)
    (hn : c0.name ≠ jenkinsMasterContainerName) :
    setDefaults u j = (j, false, some firstContainerError) ∧
    ∀ env : Env, env.getResult = .ok j →
      reconcile env u = ⟨⟨false, 0⟩, some j, some (.other firstContainerError), [], []⟩ := by
  have h1 : setDefaults u j = (j, false, some firstContainerError) := by
    unfold setDefaults; rw [hc]; dsimp only; rw [if_pos hn]
  refine ⟨h1, fun env hg => ?_⟩
  unfold reconcile
  rw [hg]
  dsimp only
  rw [h1]

/-- Witness for C9 at the concrete wrong-name document. -/
theorem setDefaults_wrong_name_witness :
    setDefaults false wrongNameDoc = (wrongNameDoc, false, some firstContainerError) ∧
    reconcile envWrongName false =
      ⟨⟨false, 0⟩, some wrongNameDoc, some (.other firstContainerError), [], []⟩ := by
  have h := setDefaults_wrong_name false wrongNameDoc
    ⟨"sidecar", "", "", none, none, [], [], emptyResourceRequirements⟩ []
    (by decide) (by decide)
  exact ⟨h.1, h.2 envWrongName rfl⟩

/-- C5: an optimistic-concurrency conflict from the inner reconcile yields an
immediate requeue with no surfaced error, no notification, and an untouched
failure tracker. -/
theorem conflict_no_tracker_impact (tracker : Tracker) (name : String) (draw : Fin 10)
    (result : RResult) (jenkins : Option Jenkins) (msg : String) :
    Reconcile tracker name draw result jenkins (some (.conflict msg)) =
      ⟨false, ⟨true, 0⟩, none, [], tracker⟩ := by
  simp [Reconcile, Err.isConflict]

/-- C6 (amended): on an inner success with requeue requested and no explicit
delay, the wrapper requeues with a jittered delay strictly below the 10 ms
bound (the delay can be zero, when the random draw is zero). -/
theorem jitter_strictly_below_bound (tracker : Tracker) (name : String) (draw : Fin 10)
    (jenkins : Option Jenkins) (res : RResult) (h1 : res.requeue = true)
    (h2 : res.requeueAfter = 0) :
    (Reconcile tracker name draw res jenkins none).result.requeue = true ∧
    (Reconcile tracker name draw res jenkins none).result.requeueAfter < 10 ∧
    (Reconcile tracker name draw res jenkins none).err = none := by
  unfold Reconcile
  simp [h1, h2]

/-- Witness for C6 at a concrete draw. -/
theorem jitter_strictly_below_bound_witness :
    (Reconcile [] "example" 3 ⟨true, 0⟩ none none).result.requeue = true ∧
    (Reconcile [] "example" 3 ⟨true, 0⟩ none none).result.requeueAfter < 10 ∧
    (Reconcile [] "example" 3 ⟨true, 0⟩ none none).err = none :=
  jitter_strictly_below_bound [] "example" 3 none ⟨true, 0⟩ rfl rfl

/-- C6 counterexample: a zero draw of the random source yields a zero delay,
so the jittered delay is not non-zero for every possible draw. -/
theorem jitter_zero_draw_counterexample :
    (Reconcile [] "example" 0 ⟨true, 0⟩ none none).result = ⟨true, 0⟩ := by decide

/-- C2 (failing input): a store read failure makes the inner reconcile return
a `none` document snapshot together with the error; on the tenth consecutive
identical such failure the circuit-breaker branch dereferences the `none`
snapshot while building its warning notification — the wrapper panics. -/
theorem nil_document_breaker_panic :
    (reconcile envGetFail false).jenkins = none ∧
    (reconcile envGetFail false).err = some (.other "storage backend unavailable") ∧
    (ReconcileFull envGetFail false [("x", ⟨.other "storage backend unavailable", 9⟩)] "x"
        0).panicked = true := by decide

/-- C1 (amended): the Reconciler applies Defaulting first and Migration
second; whichever of the two runs first and mutates the document causes the
pass to persist the document and requeue immediately, with no notification
and no later step executed (in particular Defaulting leaves the deprecated
annotations untouched). -/
theorem defaulting_then_migration (env : Env) (u : Bool) (j : Jenkins)
    (hg : env.getResult = .ok j) :
    (∀ j1, setDefaults u j = (j1, true, none) → env.update j1 = none →
       reconcile env u = ⟨⟨true, 0⟩, some j1, none, [], [j1]⟩ ∧
       j1.spec.master.annotationsDeprecated = j.spec.master.annotationsDeprecated) ∧
    (∀ j1 j2, setDefaults u j = (j1, false, none) → handleDeprecatedData j1 = (j2, true) →
       env.update j2 = none →
       reconcile env u = ⟨⟨true, 0⟩, some j2, none, [], [j2]⟩) := by
  constructor
  · intro j1 hd hu
    constructor
    · unfold reconcile
      rw [hg]
      dsimp only
      rw [hd]
      simp [hu]
    · have := setDefaults_annDep u j
      rw [hd] at this
      exact this
  · intro j1 j2 hd hm hu
    unfold reconcile
    rw [hg]
    dsimp only
    rw [hd]
    simp [hm, hu]

set_option maxHeartbeats 2000000 in
/-- Witness for C1 at the concrete document needing both engines. -/
theorem defaulting_then_migration_witness :
    reconcile envNeedsBoth false =
      ⟨⟨true, 0⟩, some (setDefaults false needsBothDoc).1, none, [],
        [(setDefaults false needsBothDoc).1]⟩ ∧
    (setDefaults false needsBothDoc).1.spec.master.annotationsDeprecated =
      needsBothDoc.spec.master.annotationsDeprecated :=
  (defaulting_then_migration envNeedsBoth false needsBothDoc rfl).1
    (setDefaults false needsBothDoc).1 rfl rfl

set_option maxHeartbeats 2000000 in
/-- C1 counterexample: on a document that needs both migration and
defaulting, the pass persists and requeues with the defaults applied but the
deprecated annotations still in place — the Migration Engine was not run
first. -/
theorem migration_first_counterexample :
    (reconcile envNeedsBoth false).result = ⟨true, 0⟩ ∧
    (reconcile envNeedsBoth false).jenkins.map
        (fun j => j.spec.master.annotationsDeprecated) = some [("a", "b")] ∧
    needsBothDoc.spec.master.annotationsDeprecated = [("a", "b")] ∧
    (reconcile envNeedsBoth false).jenkins.map
        (fun j => j.spec.master.containers.map (fun c => c.image)) =
      some [defaultJenkinsMasterImage] ∧
    needsBothDoc.spec.master.containers = [] ∧
    handleDeprecatedData needsBothDoc ≠ (needsBothDoc, false) := by decide


/-- The tracker stored by `mkIdenticalOut`. -/
theorem mkIdenticalOut_tracker (name msg : String) (jk : Jenkins) (c : Nat) :
    (mkIdenticalOut name msg jk c).tracker = [(name, ⟨.other msg, c⟩)] := by
  unfold mkIdenticalOut; split <;> rfl

/-- A first plain failure for an unseen identity creates a count-1 entry and
requeues. -/
theorem Reconcile_first_step (name msg : String) (draw : Fin 10) (res : RResult)
    (jk : Jenkins) :
    Reconcile [] name draw res (some jk) (some (.other msg)) =
      mkIdenticalOut name msg jk 1 := by
  unfold Reconcile mkIdenticalOut
  simp [Err.isConflict, nextEntry, lookupEntry, storeEntry, reconcileFailLimit]

/-- A plain failure with the same message as the stored entry increments the
counter and behaves according to the threshold. -/
theorem Reconcile_identical_step (name msg : String) (draw : Fin 10) (res : RResult)
    (jk : Jenkins) (c : Nat) :
    Reconcile [(name, ⟨Err.other msg, c⟩)] name draw res (some jk) (some (.other msg)) =
      mkIdenticalOut name msg jk (c + 1) := by
  unfold Reconcile mkIdenticalOut
  simp [Err.isConflict, Err.message, nextEntry, lookupEntry, storeEntry, reconcileFailLimit]

/-- A plain failure with a different message than the stored entry resets the
counter to one and requeues. -/
theorem Reconcile_reset_step (name msg m0 : String) (draw : Fin 10) (res : RResult)
    (jk : Jenkins) (c : Nat) (hm : msg ≠ m0) :
    Reconcile [(name, ⟨Err.other m0, c⟩)] name draw res (some jk) (some (.other msg)) =
      mkIdenticalOut name msg jk 1 := by
  unfold Reconcile mkIdenticalOut
  simp [Err.isConflict, Err.message, nextEntry, lookupEntry, storeEntry, reconcileFailLimit,
    hm]

/-- Positional outcome of a run of identical failures started from a stored
count `c`. -/
theorem runErrors_replicate_getD (name msg : String) (jk : Jenkins) (draw : Fin 10) :
    ∀ (n c k : Nat), k < n →
      (runErrors name (some jk) draw (List.replicate n msg)
          [(name, ⟨.other msg, c⟩)]).getD k dummyOut =
        mkIdenticalOut name msg jk (c + k + 1) := by
  intro n
  induction n with
  | zero => intro c k hk; omega
  | succ m ih =>
    intro c k hk
    rw [List.replicate_succ]
    simp only [runErrors, Reconcile_identical_step, mkIdenticalOut_tracker]
    cases k with
    | zero => simp
    | succ k' =>
      simp only [List.getD_cons_succ]
      have harith : c + 1 + k' + 1 = c + (k' + 1) + 1 := by omega
      rw [ih (c + 1) k' (by omega), harith]

/-- C3: with one identity failing repeatedly with one message, the wrapper
requeues exactly while the consecutive count is below the threshold of ten;
the call on which the count reaches ten and every later call return
requeue=false and emit exactly one reconcile-loop-failed warning; the count
after the k-th call is k (0-based index: call k has count k+1). -/
theorem breaker_trips_exactly_at_threshold (name msg : String) (jk : Jenkins)
    (draw : Fin 10) (n k : Nat) (hk : k < n) :
    ((runErrors name (some jk) draw (List.replicate n msg) []).getD k dummyOut).result.requeue
        = decide (k + 1 < reconcileFailLimit) ∧
    ((runErrors name (some jk) draw (List.replicate n msg) []).getD k dummyOut).events
        = (if reconcileFailLimit ≤ k + 1 then
            [⟨jk, .base, .warning, .reconcileLoopFailed msg⟩] else []) ∧
    ((runErrors name (some jk) draw (List.replicate n msg) []).getD k dummyOut).err = none ∧
    lookupEntry ((runErrors name (some jk) draw (List.replicate n msg) []).getD k
        dummyOut).tracker name = some ⟨.other msg, k + 1⟩ := by
  cases n with
  | zero => omega
  | succ m =>
    rw [List.replicate_succ]
    simp only [runErrors, Reconcile_first_step, mkIdenticalOut_tracker]
    have hout : ∀ c : Nat, (mkIdenticalOut name msg jk c).result.requeue
          = decide (c < reconcileFailLimit) ∧
        (mkIdenticalOut name msg jk c).events
          = (if reconcileFailLimit ≤ c then
              [⟨jk, .base, .warning, .reconcileLoopFailed msg⟩] else []) ∧
        (mkIdenticalOut name msg jk c).err = none ∧
        lookupEntry (mkIdenticalOut name msg jk c).tracker name = some ⟨.other msg, c⟩ := by
      intro c
      unfold mkIdenticalOut
      by_cases hc : reconcileFailLimit ≤ c
      · simp [hc, lookupEntry, Nat.not_lt.mpr hc]
      · simp [hc, lookupEntry, Nat.lt_of_not_le hc]
    cases k with
    | zero => simpa using hout 1
    | succ k' =>
      simp only [List.getD_cons_succ]
      have h := runErrors_replicate_getD name msg jk draw m 1 k' (by omega)
      rw [h]
      have harith : 1 + k' + 1 = k' + 1 + 1 := by omega
      rw [harith]
      exact hout (k' + 1 + 1)

/-- Witness for C3: eleven identical failures; the tenth call (index 9) trips
the breaker, stops requeueing and emits one warning. -/
theorem breaker_trips_exactly_at_threshold_witness :
    ((runErrors "x" (some emptyDoc) 0 (List.replicate 11 "boom") []).getD 9
          dummyOut).result.requeue = decide (9 + 1 < reconcileFailLimit) ∧
    ((runErrors "x" (some emptyDoc) 0 (List.replicate 11 "boom") []).getD 9 dummyOut).events
        = (if reconcileFailLimit ≤ 9 + 1 then
            [⟨emptyDoc, .base, .warning, .reconcileLoopFailed "boom"⟩] else []) ∧
    ((runErrors "x" (some emptyDoc) 0 (List.replicate 11 "boom") []).getD 9 dummyOut).err
        = none ∧
    lookupEntry ((runErrors "x" (some emptyDoc) 0 (List.replicate 11 "boom") []).getD 9
        dummyOut).tracker "x" = some ⟨.other "boom", 9 + 1⟩ :=
  breaker_trips_exactly_at_threshold "x" "boom" emptyDoc 0 11 9 (by omega)

/-- Looking up the identity just stored returns the stored entry. -/
theorem lookupEntry_store (t : Tracker) (name : String) (e : FailureEntry) :
    lookupEntry (storeEntry t name e) name = some e := by
  induction t with
  | nil => simp [storeEntry, lookupEntry]
  | cons p rest ih =>
    by_cases hp : p.1 = name
    · simp [storeEntry, hp, lookupEntry]
    · have hb : (p.1 == name) = false := beq_eq_false_iff_ne.mpr hp
      simp only [storeEntry, if_neg hp]
      simpa [lookupEntry, List.find?, hb] using ih

/-- Every non-conflict error updates the failure tracker with the
create/increment/reset rule before any branching on its kind. -/
theorem Reconcile_tracker_update (t : Tracker) (name : String) (draw : Fin 10)
    (res : RResult) (jk : Option Jenkins) (e : Err) (hnc : e.isConflict = false) :
    (Reconcile t name draw res jk (some e)).tracker =
      storeEntry t name (nextEntry t name e) := by
  unfold Reconcile
  simp only [hnc, Bool.false_eq_true, if_false]
  split
  · split <;> rfl
  · split
    · split <;> rfl
    · rfl

/-- The constant-run invariant carried by the never-trips induction: the
tracker is empty or holds one entry for the identity whose counter is the
length of a constant run of its message ending the processed prefix. -/
def RunInv (name : String) (pre : List String) (t : Tracker) : Prop :=
  t = [] ∨ ∃ m c, t = [(name, ⟨Err.other m, c⟩)] ∧ List.replicate c m <:+ pre ∧ 0 < c

/-- A constant suffix extends under appending the same element. -/
theorem replicate_suffix_append (c : Nat) (m : String) (pre : List String)
    (h : List.replicate c m <:+ pre) : List.replicate (c + 1) m <:+ pre ++ [m] := by
  obtain ⟨u, hu⟩ := h
  exact ⟨u, by rw [List.replicate_succ', ← List.append_assoc, hu]⟩

/-- A long constant suffix of a prefix of the sequence is a forbidden window
of the whole sequence. -/
theorem replicate_window (m : String) (pre rest : List String) (c : Nat)
    (hc : reconcileFailLimit ≤ c) (h : List.replicate c m <:+ pre ++ [m]) :
    List.replicate reconcileFailLimit m <:+: pre ++ (m :: rest) := by
  obtain ⟨u, hu⟩ := h
  have hsplit : List.replicate c m =
      List.replicate (c - reconcileFailLimit) m ++ List.replicate reconcileFailLimit m := by
    rw [← List.replicate_add]
    congr 1
    omega
  refine ⟨u ++ List.replicate (c - reconcileFailLimit) m, rest, ?_⟩
  have : pre ++ (m :: rest) = (pre ++ [m]) ++ rest := by simp
  rw [this, ← hu, hsplit]
  simp [List.append_assoc]

/-- During a run with no ten-long constant window, every call keeps requeueing
(the breaker never trips). -/
theorem runErrors_no_trip_aux (name : String) (jk : Jenkins) (draw : Fin 10) :
    ∀ (msgs pre : List String) (t : Tracker), RunInv name pre t →
      (∀ m, ¬ List.replicate reconcileFailLimit m <:+: (pre ++ msgs)) →
      ∀ w ∈ runErrors name (some jk) draw msgs t, w.result.requeue = true := by
  intro msgs
  induction msgs with
  | nil =>
    intro pre t _ _ w hw
    simp [runErrors] at hw
  | cons m rest ih =>
    intro pre t hinv hwin w hw
    have hwin' : ∀ mm, ¬ List.replicate reconcileFailLimit mm <:+: ((pre ++ [m]) ++ rest) := by
      intro mm hmm
      exact hwin mm (by simpa [List.append_assoc] using hmm)
    rcases hinv with rfl | ⟨m0, c0, rfl, hsuf, hc0⟩
    · simp only [runErrors, Reconcile_first_step, mkIdenticalOut_tracker] at hw
      rcases List.mem_cons.mp hw with rfl | htail
      · simp [mkIdenticalOut, reconcileFailLimit]
      · exact ih (pre ++ [m]) _
          (Or.inr ⟨m, 1, rfl, by simp, one_pos⟩)
          hwin' w htail
    · by_cases hm : m = m0
      · subst hm
        have hlt : ¬ reconcileFailLimit ≤ c0 + 1 := by
          intro hge
          exact hwin m (replicate_window m pre rest (c0 + 1) hge
            (replicate_suffix_append c0 m pre hsuf))
        simp only [runErrors, Reconcile_identical_step, mkIdenticalOut_tracker] at hw
        rcases List.mem_cons.mp hw with rfl | htail
        · simp [mkIdenticalOut, hlt]
        · exact ih (pre ++ [m]) _
            (Or.inr ⟨m, c0 + 1, rfl, replicate_suffix_append c0 m pre hsuf, by omega⟩)
            hwin' w htail
      · simp only [runErrors, Reconcile_reset_step name m m0 draw ⟨false, 0⟩ jk c0 hm,
          mkIdenticalOut_tracker] at hw
        rcases List.mem_cons.mp hw with rfl | htail
        · simp [mkIdenticalOut, reconcileFailLimit]
        · exact ih (pre ++ [m]) _
            (Or.inr ⟨m, 1, rfl, by simp, one_pos⟩)
            hwin' w htail

/-- C4: the Failure Tracker counts only consecutive string-identical errors —
a new identity gets count 1, a matching message increments, a differing
message resets to count 1 with the new error — and on any error sequence for
one identity with no ten successive identical messages, the breaker never
trips (every call still requeues). -/
theorem failure_tracker_consecutive_identical (name : String) (draw : Fin 10) (jk : Jenkins) :
    (∀ (t : Tracker) (res : RResult) (e : Err) (jo : Option Jenkins),
       e.isConflict = false → lookupEntry t name = none →
       lookupEntry (Reconcile t name draw res jo (some e)).tracker name = some ⟨e, 1⟩) ∧
    (∀ (t : Tracker) (res : RResult) (e : Err) (jo : Option Jenkins) (last : FailureEntry),
       e.isConflict = false → lookupEntry t name = some last →
       e.message = last.err.message →
       lookupEntry (Reconcile t name draw res jo (some e)).tracker name =
         some ⟨last.err, last.counter + 1⟩) ∧
    (∀ (t : Tracker) (res : RResult) (e : Err) (jo : Option Jenkins) (last : FailureEntry),
       e.isConflict = false → lookupEntry t name = some last →
       e.message ≠ last.err.message →
       lookupEntry (Reconcile t name draw res jo (some e)).tracker name = some ⟨e, 1⟩) ∧
    (∀ msgs : List String, (∀ m, ¬ List.replicate reconcileFailLimit m <:+: msgs) →
       ∀ w ∈ runErrors name (some jk) draw msgs [], w.result.requeue = true) := by
  refine ⟨?_, ?_, ?_, ?_⟩
  · intro t res e jo hnc hl
    rw [Reconcile_tracker_update t name draw res jo e hnc, nextEntry, hl]
    exact lookupEntry_store t name ⟨e, 1⟩
  · intro t res e jo last hnc hl hmsg
    rw [Reconcile_tracker_update t name draw res jo e hnc, nextEntry, hl]
    simp only [if_pos hmsg]
    exact lookupEntry_store t name ⟨last.err, last.counter + 1⟩
  · intro t res e jo last hnc hl hmsg
    rw [Reconcile_tracker_update t name draw res jo e hnc, nextEntry, hl]
    simp only [if_neg hmsg]
    exact lookupEntry_store t name ⟨e, 1⟩
  · intro msgs hwin w hw
    exact runErrors_no_trip_aux name jk draw msgs [] [] (Or.inl rfl) (by simpa using hwin)
      w hw

/-- Witness for C4: a fresh identity gets a count-1 entry, and a short
alternating sequence (which cannot contain a ten-long window) never trips. -/
theorem failure_tracker_consecutive_identical_witness :
    lookupEntry (Reconcile [] "x" 0 ⟨false, 0⟩ (some emptyDoc)
        (some (.other "boom"))).tracker "x" = some ⟨.other "boom", 1⟩ ∧
    ∀ w ∈ runErrors "x" (some emptyDoc) 0 ["a", "b", "a"] [], w.result.requeue = true := by
  constructor
  · exact (failure_tracker_consecutive_identical "x" 0 emptyDoc).1 [] ⟨false, 0⟩
      (.other "boom") (some emptyDoc) rfl rfl
  · exact (failure_tracker_consecutive_identical "x" 0 emptyDoc).2.2.2 ["a", "b", "a"]
      (fun m hm => by
        have := hm.sublist.length_le
        simp [reconcileFailLimit] at this)


/-- C10: a Groovy-script execution failure is first run through the failure
tracker; at or above the threshold the generic reconcile-loop-failed warning
is emitted with requeue=false and the Groovy notification is suppressed;
below the threshold the detailed Groovy notification (with the remote logs)
is emitted, also with requeue=false. -/
theorem groovy_failure_tracked_then_classified (tracker : Tracker) (name : String)
    (draw : Fin 10) (res : RResult) (jk : Jenkins) (ct src scriptName msg : String)
    (logs : List String) :
    lookupEntry (Reconcile tracker name draw res (some jk)
        (some (.groovy ct src scriptName logs msg))).tracker name =
      some (nextEntry tracker name (.groovy ct src scriptName logs msg)) ∧
    (reconcileFailLimit ≤ (nextEntry tracker name (.groovy ct src scriptName logs msg)).counter →
      Reconcile tracker name draw res (some jk) (some (.groovy ct src scriptName logs msg)) =
        ⟨false, ⟨false, 0⟩, none, [⟨jk, .base, .warning, .reconcileLoopFailed msg⟩],
          storeEntry tracker name (nextEntry tracker name (.groovy ct src scriptName logs msg))⟩) ∧
    ((nextEntry tracker name (.groovy ct src scriptName logs msg)).counter < reconcileFailLimit →
      Reconcile tracker name draw res (some jk) (some (.groovy ct src scriptName logs msg)) =
        ⟨false, ⟨false, 0⟩, none,
          [⟨jk, .base, .warning, .groovyScriptExecutionFailed
            [ct ++ " Source " ++ src ++ " Name " ++ scriptName ++
              " groovy script execution failed"] logs⟩],
          storeEntry tracker name
            (nextEntry tracker name (.groovy ct src scriptName logs msg))⟩) := by
  refine ⟨?_, ?_, ?_⟩
  · rw [Reconcile_tracker_update tracker name draw res (some jk)
      (.groovy ct src scriptName logs msg) rfl]
    exact lookupEntry_store tracker name _
  · intro h
    unfold Reconcile
    simp only [Err.isConflict, Bool.false_eq_true, if_false]
    rw [if_pos h]
    rfl
  · intro h
    unfold Reconcile
    simp only [Err.isConflict, Bool.false_eq_true, if_false]
    rw [if_neg (Nat.not_le.mpr h)]

/-- Witness for C10: a tenth consecutive identical Groovy failure emits the
generic warning and suppresses the detailed one; a first Groovy failure emits
the detailed notification; both stop requeueing. -/
theorem groovy_failure_tracked_then_classified_witness :
    Reconcile [("x", ⟨.other "boom", 9⟩)] "x" 0 ⟨false, 0⟩ (some emptyDoc)
        (some (.groovy "user" "cm" "script" ["log1"] "boom")) =
      ⟨false, ⟨false, 0⟩, none, [⟨emptyDoc, .base, .warning, .reconcileLoopFailed "boom"⟩],
        storeEntry [("x", ⟨.other "boom", 9⟩)] "x"
          (nextEntry [("x", ⟨.other "boom", 9⟩)] "x" (.groovy "user" "cm" "script" ["log1"] "boom"))⟩ ∧
    Reconcile [] "x" 0 ⟨false, 0⟩ (some emptyDoc)
        (some (.groovy "user" "cm" "script" ["log1"] "boom")) =
      ⟨false, ⟨false, 0⟩, none,
        [⟨emptyDoc, .base, .warning, .groovyScriptExecutionFailed
          ["user" ++ " Source " ++ "cm" ++ " Name " ++ "script" ++
            " groovy script execution failed"] ["log1"]⟩],
        storeEntry [] "x" (nextEntry [] "x" (.groovy "user" "cm" "script" ["log1"] "boom"))⟩ :=
  ⟨(groovy_failure_tracked_then_classified [("x", ⟨.other "boom", 9⟩)] "x" 0 ⟨false, 0⟩
      emptyDoc "user" "cm" "script" "boom" ["log1"]).2.1 (by decide),
   (groovy_failure_tracked_then_classified [] "x" 0 ⟨false, 0⟩
      emptyDoc "user" "cm" "script" "boom" ["log1"]).2.2 (by decide)⟩


/-- The document returned by `userPart`: either unchanged, or (only when the
user-configuration timestamp was unset) stamped with the current time. -/
theorem userPart_jenkins_cases (env : Env) (j : Jenkins) (evs : List Event)
    (ups : List Jenkins) :
    (userPart env j evs ups).jenkins = some j ∨
    (j.status.userConfigurationCompletedTime = none ∧
     (userPart env j evs ups).jenkins =
       some {j with status.userConfigurationCompletedTime := some env.now}) := by
  unfold userPart
  dsimp only
  repeat' split
  all_goals first
    | exact Or.inl rfl
    | exact Or.inr ⟨by assumption, rfl⟩

/-- The events emitted by `userPart`: the incoming ones, a user-validation
warning, or (only when the user timestamp was unset) the user-completion
notification. -/
theorem userPart_events_reasons (env : Env) (j : Jenkins) (evs : List Event)
    (ups : List Jenkins) :
    ∀ ev ∈ (userPart env j evs ups).events, ev ∈ evs ∨
      (∃ short verbose, ev.reason = .userConfigurationFailed short verbose) ∨
      (j.status.userConfigurationCompletedTime = none ∧
       ∃ d, ev.reason = .userConfigurationComplete d) := by
  intro ev hev
  unfold userPart at hev
  dsimp only at hev
  repeat' split at hev
  all_goals first
    | exact Or.inl hev
    | (rcases List.mem_append.mp hev with h | h
       · exact Or.inl h
       · simp only [List.mem_singleton] at h
         subst h
         exact Or.inr (Or.inl ⟨_, _, rfl⟩))
    | (rcases List.mem_append.mp hev with h | h
       · exact Or.inl h
       · simp only [List.mem_singleton] at h
         subst h
         exact Or.inr (Or.inr ⟨by assumption, _, rfl⟩))

/-- The document returned by `phasesPart`: unchanged, or stamped with the
base and/or user completion time — each stamp only when the corresponding
timestamp was unset. -/
theorem phasesPart_jenkins_cases (env : Env) (j : Jenkins) :
    (phasesPart env j).jenkins = some j ∨
    (j.status.userConfigurationCompletedTime = none ∧
     (phasesPart env j).jenkins =
       some {j with status.userConfigurationCompletedTime := some env.now}) ∨
    (j.status.baseConfigurationCompletedTime = none ∧
     ((phasesPart env j).jenkins =
        some {j with status.baseConfigurationCompletedTime := some env.now} ∨
      (j.status.userConfigurationCompletedTime = none ∧
       (phasesPart env j).jenkins =
         some {j with status.baseConfigurationCompletedTime := some env.now,
                      status.userConfigurationCompletedTime := some env.now}))) := by
  unfold phasesPart
  dsimp only
  split
  · exact Or.inl rfl
  · split
    · exact Or.inl rfl
    · split
      · exact Or.inl rfl
      · split
        · exact Or.inl rfl
        · split
          · exact Or.inl rfl
          · split
            · rcases userPart_jenkins_cases env j [] [] with h | ⟨hn, h⟩
              · exact Or.inl h
              · exact Or.inr (Or.inl ⟨hn, h⟩)
            · rename_i hbase
              split
              · exact Or.inr (Or.inr ⟨hbase, Or.inl rfl⟩)
              · rcases userPart_jenkins_cases env
                    {j with status.baseConfigurationCompletedTime := some env.now}
                    _ _ with h | ⟨hn, h⟩
                · exact Or.inr (Or.inr ⟨hbase, Or.inl h⟩)
                · exact Or.inr (Or.inr ⟨hbase, Or.inr ⟨hn, h⟩⟩)

/-- The events emitted by `phasesPart`: validation warnings, or a completion
notification for a phase whose timestamp was unset. -/
theorem phasesPart_events_reasons (env : Env) (j : Jenkins) :
    ∀ ev ∈ (phasesPart env j).events,
      (∃ short verbose, ev.reason = .baseConfigurationFailed short verbose) ∨
      (∃ short verbose, ev.reason = .userConfigurationFailed short verbose) ∨
      (j.status.baseConfigurationCompletedTime = none ∧
       ∃ d, ev.reason = .baseConfigurationComplete d) ∨
      (j.status.userConfigurationCompletedTime = none ∧
       ∃ d, ev.reason = .userConfigurationComplete d) := by
  intro ev hev
  unfold phasesPart at hev
  dsimp only at hev
  split at hev
  · simp at hev
  · split at hev
    · simp only [List.mem_singleton] at hev
      subst hev
      exact Or.inl ⟨_, _, rfl⟩
    · split at hev
      · simp at hev
      · split at hev
        · simp at hev
        · split at hev
          · simp at hev
          · split at hev
            · rcases userPart_events_reasons env j [] [] ev hev with h | h | ⟨hn, h⟩
              · simp at h
              · exact Or.inr (Or.inl h)
              · exact Or.inr (Or.inr (Or.inr ⟨hn, h⟩))
            · rename_i hbase
              split at hev
              · simp at hev
              · rcases userPart_events_reasons env
                    {j with status.baseConfigurationCompletedTime := some env.now} _ _
                    ev hev with h | h | ⟨hn, h⟩
                · simp only [List.mem_singleton] at h
                  subst h
                  exact Or.inr (Or.inr (Or.inl ⟨hbase, _, rfl⟩))
                · exact Or.inr (Or.inl h)
                · exact Or.inr (Or.inr (Or.inr ⟨hn, h⟩))

/-- `handleDeprecatedData` never touches the status. -/
theorem handleDeprecatedData_status (j : Jenkins) :
    (handleDeprecatedData j).1.status = j.status := by
  unfold handleDeprecatedData
  split <;> rfl

/-- `setDefaults` never touches the status. -/
theorem setDefaults_status (u : Bool) (j : Jenkins) :
    (setDefaults u j).1.status = j.status := by
  cases hc : j.spec.master.containers with
  | nil =>
    have he : setDefaults u j = setDefaultsCore u j
        ⟨jenkinsMasterContainerName, "", "", none, none, [], [], emptyResourceRequirements⟩
        true := by
      unfold setDefaults; rw [hc]
    simp only [he, setDefaultsCore_eq]
    exact coreState_status u j _ true
  | cons c0 rest =>
    by_cases hname : c0.name ≠ jenkinsMasterContainerName
    · have he : setDefaults u j = (j, false, some firstContainerError) := by
        unfold setDefaults; rw [hc]; dsimp only; rw [if_pos hname]
      simp only [he]
    · have he : setDefaults u j = setDefaultsCore u j c0 false := by
        unfold setDefaults; rw [hc]; dsimp only; rw [if_neg hname]
      simp only [he, setDefaultsCore_eq]
      exact coreState_status u j c0 false

/-- A successful store read leads either to an early return with the loaded
status intact and no events, or to `phasesPart` on the normalized document
(whose status is still the loaded one). -/
theorem reconcile_ok_cases (env : Env) (u : Bool) (j : Jenkins)
    (hg : env.getResult = .ok j) :
    ((∃ jx, (reconcile env u).jenkins = some jx ∧ jx.status = j.status) ∧
       (reconcile env u).events = []) ∨
    (reconcile env u = phasesPart env (handleDeprecatedData (setDefaults u j).1).1 ∧
     (handleDeprecatedData (setDefaults u j).1).1.status = j.status) := by
  have hds : (setDefaults u j).1.status = j.status := setDefaults_status u j
  have hms : (handleDeprecatedData (setDefaults u j).1).1.status = j.status := by
    rw [handleDeprecatedData_status]
    exact hds
  unfold reconcile
  rw [hg]
  dsimp only
  split
  · exact Or.inl ⟨⟨_, rfl, hds⟩, rfl⟩
  · split
    · exact Or.inl ⟨⟨_, rfl, hds⟩, rfl⟩
    · split
      · exact Or.inl ⟨⟨_, rfl, hds⟩, rfl⟩
      · split
        · exact Or.inl ⟨⟨_, rfl, hms⟩, rfl⟩
        · split
          · exact Or.inl ⟨⟨_, rfl, hms⟩, rfl⟩
          · exact Or.inr ⟨rfl, hms⟩

/-- C7: once a phase completion timestamp is set on the loaded document, a
reconciliation pass never overwrites it and never emits that phase's
completion notification — the stamp-and-notify block runs only when the
corresponding status field is nil. -/
theorem phase_completion_recorded_once (env : Env) (u : Bool) (j : Jenkins)
    (hg : env.getResult = .ok j) :
    (∀ t, j.status.baseConfigurationCompletedTime = some t →
       (∀ j', (reconcile env u).jenkins = some j' →
          j'.status.baseConfigurationCompletedTime = some t) ∧
       ∀ ev ∈ (reconcile env u).events, ∀ d,
         ev.reason ≠ .baseConfigurationComplete d) ∧
    (∀ t, j.status.userConfigurationCompletedTime = some t →
       (∀ j', (reconcile env u).jenkins = some j' →
          j'.status.userConfigurationCompletedTime = some t) ∧
       ∀ ev ∈ (reconcile env u).events, ∀ d,
         ev.reason ≠ .userConfigurationComplete d) := by
  rcases reconcile_ok_cases env u j hg with ⟨⟨jx, hjx, hst⟩, hev⟩ | ⟨heq, hst⟩
  · constructor
    · intro t hb
      refine ⟨fun j' hj' => ?_, fun ev hevm => ?_⟩
      · rw [hjx] at hj'
        obtain rfl := Option.some.inj hj'
        rw [hst]
        exact hb
      · rw [hev] at hevm
        simp at hevm
    · intro t hu
      refine ⟨fun j' hj' => ?_, fun ev hevm => ?_⟩
      · rw [hjx] at hj'
        obtain rfl := Option.some.inj hj'
        rw [hst]
        exact hu
      · rw [hev] at hevm
        simp at hevm
  · rw [heq]
    have hbX : (handleDeprecatedData (setDefaults u j).1).1.status.baseConfigurationCompletedTime
        = j.status.baseConfigurationCompletedTime := by rw [hst]
    have huX : (handleDeprecatedData (setDefaults u j).1).1.status.userConfigurationCompletedTime
        = j.status.userConfigurationCompletedTime := by rw [hst]
    constructor
    · intro t hb
      refine ⟨fun j' hj' => ?_, fun ev hevm => ?_⟩
      · rcases phasesPart_jenkins_cases env (handleDeprecatedData (setDefaults u j).1).1
            with h | ⟨_, h⟩ | ⟨hn, _⟩
        · rw [h] at hj'
          obtain rfl := Option.some.inj hj'
          rw [hbX]
          exact hb
        · rw [h] at hj'
          obtain rfl := Option.some.inj hj'
          simpa [hbX] using hb
        · rw [hbX, hb] at hn
          exact absurd hn (by simp)
      · rcases phasesPart_events_reasons env (handleDeprecatedData (setDefaults u j).1).1
            ev hevm with ⟨s1, s2, h⟩ | ⟨s1, s2, h⟩ | ⟨hn, _⟩ | ⟨_, d0, h⟩
        · intro d; rw [h]; exact fun hcon => Reason.noConfusion hcon
        · intro d; rw [h]; exact fun hcon => Reason.noConfusion hcon
        · rw [hbX, hb] at hn
          exact absurd hn (by simp)
        · intro d; rw [h]; exact fun hcon => Reason.noConfusion hcon
    · intro t hu
      refine ⟨fun j' hj' => ?_, fun ev hevm => ?_⟩
      · rcases phasesPart_jenkins_cases env (handleDeprecatedData (setDefaults u j).1).1
            with h | ⟨hn, _⟩ | ⟨_, h | ⟨hn, _⟩⟩
        · rw [h] at hj'
          obtain rfl := Option.some.inj hj'
          rw [huX]
          exact hu
        · rw [huX, hu] at hn
          exact absurd hn (by simp)
        · rw [h] at hj'
          obtain rfl := Option.some.inj hj'
          simpa [huX] using hu
        · rw [huX, hu] at hn
          exact absurd hn (by simp)
      · rcases phasesPart_events_reasons env (handleDeprecatedData (setDefaults u j).1).1
            ev hevm with ⟨s1, s2, h⟩ | ⟨s1, s2, h⟩ | ⟨_, d0, h⟩ | ⟨hn, _⟩
        · intro d; rw [h]; exact fun hcon => Reason.noConfusion hcon
        · intro d; rw [h]; exact fun hcon => Reason.noConfusion hcon
        · intro d; rw [h]; exact fun hcon => Reason.noConfusion hcon
        · rw [huX, hu] at hn
          exact absurd hn (by simp)

/-- Witness for C7 at a concrete document with both phases already
completed. -/
theorem phase_completion_recorded_once_witness :
    ((∀ j', (reconcile envCompleted false).jenkins = some j' →
        j'.status.baseConfigurationCompletedTime = some 8) ∧
     ∀ ev ∈ (reconcile envCompleted false).events, ∀ d,
       ev.reason ≠ .baseConfigurationComplete d) ∧
    ((∀ j', (reconcile envCompleted false).jenkins = some j' →
        j'.status.userConfigurationCompletedTime = some 9) ∧
     ∀ ev ∈ (reconcile envCompleted false).events, ∀ d,
       ev.reason ≠ .userConfigurationComplete d) :=
  ⟨(phase_completion_recorded_once envCompleted false completedDoc rfl).1 8 rfl,
   (phase_completion_recorded_once envCompleted false completedDoc rfl).2 9 rfl⟩

end JenkinsOperator
